import Mathlib

/-!
Shallow embedding of the pygeom-scarf geometry constructor (package
`pygeomscarf`): the cryostat profile generators and assembly pipeline
(`cryo.py`), the detector-string and fiber-shroud assembler (`strings.py`),
the source and cavern assemblers (`source.py`, `cavern.py`), the public
metadata proxy (`metadata.py`) and the top-level constructor
(`core.py::construct`).

Lengths are rational numbers (millimetres).  The mutable `pyg4ometry`
registry is modelled as an explicit record of the names and parameters
registered so far; fallible steps (Python exceptions) return `Except`.
-/

namespace PygeomScarf

/-- The named cryostat dimensions read from `configs/cryostat.yaml`
(schema documented at the top of `cryo.py`). -/
structure CryoDims where
  inner_radius : ℚ
  inner_upper_thickness : ℚ
  inner_upper_height : ℚ
  inner_lower_thickness : ℚ
  inner_lower_height : ℚ
  outer_radius : ℚ
  outer_height : ℚ
  outer_thickness : ℚ
  top_height : ℚ
  top_radius : ℚ
  gas_argon_height : ℚ
  lead_air_gap : ℚ
  lead_thickness : ℚ
  deriving Repr, DecidableEq

/-- `cryo.py` line 54: `TOL = 0.01  # mm, tolerance to avoid overlaps`. -/
def TOL : ℚ := 1 / 100

/-- `cryo.py::inner_cryostat_profile`: radius and height lists of the
inner-cryostat polycone. -/
def inner_cryostat_profile (d : CryoDims) : List ℚ × List ℚ :=
  ( [ 0,
      d.inner_radius + d.inner_lower_thickness,
      d.inner_radius + d.inner_lower_thickness,
      d.inner_radius + d.inner_lower_thickness / 2 + d.inner_upper_thickness / 2,
      d.inner_radius + d.inner_lower_thickness / 2 + d.inner_upper_thickness / 2,
      0 ],
    [ 0,
      0,
      d.inner_lower_height + d.inner_lower_thickness,
      d.inner_lower_height + d.inner_lower_thickness,
      d.inner_lower_height + d.inner_upper_height + d.inner_lower_thickness,
      d.inner_lower_height + d.inner_upper_height + d.inner_lower_thickness ] )

/-- `cryo.py::lar_profile`: radius and height lists of the LAr polycone. -/
def lar_profile (d : CryoDims) : List ℚ × List ℚ :=
  ( [ 0,
      d.inner_radius,
      d.inner_radius,
      d.inner_radius + d.inner_lower_thickness / 2 - d.inner_upper_thickness / 2,
      d.inner_radius + d.inner_lower_thickness / 2 - d.inner_upper_thickness / 2,
      0 ],
    [ 0,
      0,
      d.inner_lower_height,
      d.inner_lower_height,
      d.inner_lower_height + d.inner_upper_height - TOL,
      d.inner_lower_height + d.inner_upper_height - TOL ] )

/-- `cryo.py::gaseous_argon_profile`: radius and height lists of the
gaseous-argon polycone. -/
def gaseous_argon_profile (d : CryoDims) : List ℚ × List ℚ :=
  ( [ 0,
      d.inner_radius + d.inner_lower_thickness / 2 - d.inner_upper_thickness / 2 - TOL,
      d.inner_radius + d.inner_lower_thickness / 2 - d.inner_upper_thickness / 2 - TOL,
      0 ],
    [ 0,
      0,
      d.gas_argon_height - 2 * TOL,
      d.gas_argon_height - 2 * TOL ] )

/-- `cryo.py::outer_cryostat_profile`: radius and height lists of the
outer-cryostat polycone. -/
def outer_cryostat_profile (d : CryoDims) : List ℚ × List ℚ :=
  ( [ 0,
      d.outer_radius + d.outer_thickness,
      d.outer_radius + d.outer_thickness,
      d.outer_radius,
      d.outer_radius,
      0 ],
    [ 0, 0, d.outer_height, d.outer_height, d.outer_thickness, d.outer_thickness ] )

/-- `cryo.py::cryostat_lid_profile`: radius and height lists of the lid. -/
def cryostat_lid_profile (d : CryoDims) : List ℚ × List ℚ :=
  ( [0, d.top_radius, d.top_radius, 0],
    [0, 0, d.top_height, d.top_height] )

/-- `cryo.py::lead_profile`: radius and height lists of the lead shield. -/
def lead_profile (d : CryoDims) : List ℚ × List ℚ :=
  ( [ 0,
      d.outer_radius + d.lead_air_gap,
      d.outer_radius + d.lead_air_gap,
      d.outer_radius + d.lead_air_gap + d.lead_thickness,
      d.outer_radius + d.lead_air_gap + d.lead_thickness,
      0 ],
    [ 0,
      0,
      d.outer_height + d.lead_air_gap,
      d.outer_height + d.lead_air_gap,
      -d.lead_thickness,
      -d.lead_thickness ] )

/-! ## Registry data model

A `pyg4ometry.geant4.Registry` is modelled by the lists of solids, logical
volumes, physical volumes, optical surfaces, border surfaces and
active-detector tags registered so far, in registration order.  Calls into
the external detector-shape factory `pygeomhpges.make_hpge` are recorded
(`hpgeFactoryCalls`) so that the record handed to the factory can be
inspected. -/

/-- A solid registered with the registry, with the dimensions the external
solid kernel receives (only those the claims need are kept). -/
inductive Solid
  | box (name : String) (x y z : ℚ)
  | polycone (name : String) (radii heights : List ℚ)
  | tubs (name : String) (rmin rmax dz : ℚ)
  | sphere (name : String) (rmin rmax : ℚ)
  | subtraction (name a b : String)
  | union (name a b : String)
  | hpge (name : String)
  deriving Repr, DecidableEq

/-- Name of a solid. -/
def Solid.name : Solid → String
  | .box n _ _ _ => n
  | .polycone n _ _ => n
  | .tubs n _ _ _ => n
  | .sphere n _ _ => n
  | .subtraction n _ _ => n
  | .union n _ _ => n
  | .hpge n => n

/-- A logical volume: a named (solid, material) pair. -/
structure LogicalVolume where
  name : String
  solid : Solid
  material : String
  deriving Repr, DecidableEq

/-- A physical volume: a named placement of a logical volume inside a
mother logical volume, at translation `(0, y, z)` millimetres (all
placements in this code base have zero x component and identity
rotation). -/
structure PhysVol where
  name : String
  logical : String
  mother : String
  y : ℚ
  z : ℚ
  deriving Repr, DecidableEq

/-- A border surface (`geant4.BorderSurface`): a named, ordered pair of
physical volumes together with the optical-surface model attached. -/
structure BorderSurf where
  name : String
  pv1 : String
  pv2 : String
  optical : String
  deriving Repr, DecidableEq

/-- `pygeomtools.detectors.RemageDetectorInfo`: the active-detector tag
attached to a placed volume (detector kind and unique integer id). -/
structure RemageDetectorInfo where
  kind : String
  uid : Nat
  deriving Repr, DecidableEq

/-- `production.enrichment` block of a detector metadata record. -/
structure Enrichment where
  val : Option ℚ
  deriving Repr, DecidableEq

/-- `production` block of a detector metadata record. -/
structure Production where
  enrichment : Enrichment
  deriving Repr, DecidableEq

/-- A per-detector metadata record (`hardware.detectors.germanium.diodes`
entry): the fields this code base reads. -/
structure HpgeMeta where
  name : String
  production : Production
  deriving Repr, DecidableEq

/-- The diode metadata table: lookup by detector name. -/
def Metadata := String → Option HpgeMeta

/-- The registry. -/
structure Registry where
  solids : List Solid := []
  logicalVolumes : List LogicalVolume := []
  physicalVolumes : List PhysVol := []
  opticalSurfaces : List String := []
  borderSurfaces : List BorderSurf := []
  activeDetectors : List (String × RemageDetectorInfo) := []
  hpgeFactoryCalls : List HpgeMeta := []
  world : Option String := none
  deriving Repr, DecidableEq

/-- Names of the registered logical volumes (`reg.logicalVolumeDict` keys). -/
def Registry.lvNames (r : Registry) : List String :=
  r.logicalVolumes.map LogicalVolume.name

/-- Names of the registered physical volumes (`reg.physicalVolumeDict` keys). -/
def Registry.pvNames (r : Registry) : List String :=
  r.physicalVolumes.map PhysVol.name

/-- `reg.physicalVolumeDict[name]` as a partial lookup.  A Python dict
entry is overwritten by a later assignment to the same key, so the most
recent registration wins. -/
def Registry.findPV (r : Registry) (name : String) : Option PhysVol :=
  r.physicalVolumes.reverse.find? (fun pv => pv.name = name)

/-- Look up a registered tubs solid by name (most recent registration). -/
def Registry.findTubs (r : Registry) (name : String) : Option (ℚ × ℚ × ℚ) :=
  (r.solids.reverse.find? (fun s => s.name = name)).bind fun s =>
    match s with
    | .tubs _ rmin rmax dz => some (rmin, rmax, dz)
    | _ => none

/-- The germanium active-detector tags, in registration order. -/
def Registry.germaniumDetectors (r : Registry) : List (String × Nat) :=
  (r.activeDetectors.filter (fun t => t.2.kind = "germanium")).map
    (fun t => (t.1, t.2.uid))

/-- Register a solid. -/
def Registry.addSolid (r : Registry) (s : Solid) : Registry :=
  { r with solids := r.solids ++ [s] }

/-- Register a logical volume. -/
def Registry.addLV (r : Registry) (lv : LogicalVolume) : Registry :=
  { r with logicalVolumes := r.logicalVolumes ++ [lv] }

/-- Register a physical volume. -/
def Registry.addPV (r : Registry) (pv : PhysVol) : Registry :=
  { r with physicalVolumes := r.physicalVolumes ++ [pv] }

/-- Register an optical surface model (`geant4.solid.OpticalSurface`). -/
def Registry.addOptical (r : Registry) (name : String) : Registry :=
  { r with opticalSurfaces := r.opticalSurfaces ++ [name] }

/-- Register a border surface (`geant4.BorderSurface`). -/
def Registry.addBorder (r : Registry) (b : BorderSurf) : Registry :=
  { r with borderSurfaces := r.borderSurfaces ++ [b] }

/-- Attach an active-detector tag to a placed volume
(`pv.pygeom_active_detector = RemageDetectorInfo(...)`). -/
def Registry.tagDetector (r : Registry) (pvName : String) (info : RemageDetectorInfo) :
    Registry :=
  { r with activeDetectors := r.activeDetectors ++ [(pvName, info)] }

/-- Record a call into the external factory `pygeomhpges.make_hpge`. -/
def Registry.recordFactoryCall (r : Registry) (m : HpgeMeta) : Registry :=
  { r with hpgeFactoryCalls := r.hpgeFactoryCalls ++ [m] }

/-- Modelled from the spec: `pygeomscarf.utils._place_pv` is not among the
provided source files (only its call sites in `cryo.py` and `strings.py`
are).  Per spec section 4.2 the placement engine registers a new physical
volume with the given name, an instance of the child logical volume, as a
daughter of the mother logical volume, at the given vertical offset with
identity rotation. -/
def place_pv (name : String) (child : LogicalVolume) (mother : LogicalVolume)
    (z_pos : ℚ) (reg : Registry) : Registry :=
  reg.addPV { name := name, logical := child.name, mother := mother.name, y := 0, z := z_pos }

/-- Modelled from the spec: `pygeomscarf.utils.merge_configs` is not among
the provided source files (only `tests/test_utils.py` and its call site in
`core.py` are).  Per the test, it merges two mappings with the second
argument overriding the first, and returns the first unchanged when the
second is `None`. -/
def merge_configs (base : Metadata) (extra : Option Metadata) : Metadata :=
  fun n =>
    match extra with
    | none => base n
    | some e => match e n with
      | some v => some v
      | none => base n

/-! ## Cryostat assembler (`cryo.py`) -/

/-- `cryo.py::_construct_polycone`: build a generic polycone solid and its
logical volume, register both, and return the logical volume. -/
def construct_polycone (name : String) (profile : List ℚ × List ℚ)
    (reg : Registry) (material : String) : Registry × LogicalVolume :=
  let s : Solid := .polycone name profile.1 profile.2
  let lv : LogicalVolume := ⟨name, s, material⟩
  ((reg.addSolid s).addLV lv, lv)

/-- `cryo.py::set_steel_reflectivity`: register the steel optical surface,
look both physical volumes up by name in `reg.physicalVolumeDict` (a
missing name raises `KeyError`), and attach the two border surfaces.  Note
that `build_cryostat` passes the two names positionally swapped, so
`cryostat_name` receives `"lar"` there. -/
def set_steel_reflectivity (reg : Registry) (cryostat_name lar_name : String) :
    Except String Registry :=
  match (reg.addOptical "surface_to_steel").findPV cryostat_name with
  | none => .error ("KeyError: " ++ cryostat_name)
  | some cryostat =>
    match (reg.addOptical "surface_to_steel").findPV lar_name with
    | none => .error ("KeyError: " ++ lar_name)
    | some lar =>
      .ok (((reg.addOptical "surface_to_steel").addBorder
          ⟨"bsurface_lar_cryostat", lar.name, cryostat.name, "surface_to_steel"⟩).addBorder
        ⟨"bsurface_cryostat_lar", cryostat.name, lar.name, "surface_to_steel"⟩)

/-- `cryo.py::build_cryostat`: the strictly sequential cryostat assembly
(inner vessel, LAr, steel reflectivity, gaseous argon, outer vessel, lid,
lead shield), with the placement offsets written exactly as in the
source. -/
def build_cryostat (d : CryoDims) (world_log : LogicalVolume) (reg : Registry) :
    Except String Registry :=
  let (r₁, inner) := construct_polycone "inner_cryostat" (inner_cryostat_profile d) reg "metal_steel"
  let shift := (d.inner_lower_height + d.inner_upper_height) / 2
  let r₂ := place_pv "inner_cryostat" inner world_log (-shift) r₁
  let (r₃, lar) := construct_polycone "lar" (lar_profile d) r₂ "liquidargon"
  let r₄ := place_pv "lar" lar inner d.inner_lower_thickness r₃
  match set_steel_reflectivity r₄ "lar" "inner_cryostat" with
  | .error e => .error e
  | .ok r₅ =>
    let (r₆, gas) := construct_polycone "gaseous_argon" (gaseous_argon_profile d) r₅ "G4_Ar"
    let r₇ := place_pv "gaseous_argon" gas lar
      (d.inner_lower_height + d.inner_upper_height - d.gas_argon_height) r₆
    let (r₈, outer) := construct_polycone "outer_cryostat" (outer_cryostat_profile d) r₇ "metal_steel"
    let r₉ := place_pv "outer_cryostat" outer world_log
      (-150 - d.inner_lower_thickness - shift) r₈
    let (r₁₀, lid) := construct_polycone "cryostat_lid" (cryostat_lid_profile d) r₉ "metal_steel"
    let z_lid := d.inner_lower_height + d.inner_upper_height + 3 - shift
    let r₁₁ := place_pv "cryostat_lid" lid world_log z_lid r₁₀
    let (r₁₂, lead) := construct_polycone "lead_shield" (lead_profile d) r₁₁ "G4_Pb"
    .ok (place_pv "lead_shield" lead world_log
      (-150 - 2 * d.outer_thickness - d.lead_air_gap - shift) r₁₂)

/-! ## Detector-string and fiber-shroud assembler (`strings.py`) -/

/-- `strings.py` line 18: `FIBER_DIM = 1` (mm). -/
def FIBER_DIM : ℚ := 1

/-- `strings.py` line 19: `TPB_THICKNESS_UM = 1` (micrometres). -/
def TPB_THICKNESS_UM : ℚ := 1

/-- `strings.py` lines 240 to 241: a detector metadata record whose
`production.enrichment.val` is `None` has it set to `0.9` in place; other
records are left unchanged. -/
def normalize_enrichment (m : HpgeMeta) : HpgeMeta :=
  if m.production.enrichment.val = none then
    { m with production := { m.production with enrichment := ⟨some (9 / 10)⟩ } }
  else m

/-- The external detector-shape factory `pygeomhpges.make_hpge`: given a
metadata record, it synthesizes the detector solid and registers a logical
volume named after the record.  The record handed over is captured in
`hpgeFactoryCalls`. -/
def make_hpge (m : HpgeMeta) (reg : Registry) : Registry × LogicalVolume :=
  let lv : LogicalVolume := ⟨m.name, .hpge m.name, "enriched_germanium"⟩
  (((reg.recordFactoryCall m).addSolid (.hpge m.name)).addLV lv, lv)

/-- `strings.py::set_germanium_reflectivity`: register the germanium
optical surface, look the liquid-argon physical volume up by name (a
missing name raises `KeyError`), and attach the border surface from the
LAr volume to the detector volume. -/
def set_germanium_reflectivity (hpge : PhysVol) (reg : Registry)
    (lar_name : String) : Except String Registry :=
  match (reg.addOptical "surface_to_germanium").findPV lar_name with
  | none => .error ("KeyError: " ++ lar_name)
  | some lar_pv =>
    .ok ((reg.addOptical "surface_to_germanium").addBorder
      ⟨"bsurface_lar_ge_" ++ hpge.name, lar_pv.name, hpge.name, "surface_to_germanium"⟩)

/-- `strings.py::build_fiber_shroud`: build the TPB coating tube and the
fiber-core tube, place the core concentrically inside the coating, tag the
core as an optical active detector with id 100, and return the coating
logical volume. -/
def build_fiber_shroud (reg : Registry) (shroud_height shroud_radius : ℚ) :
    Registry × LogicalVolume :=
  let coating_dim := FIBER_DIM + 2 * TPB_THICKNESS_UM / 1000
  let coating : Solid := .tubs "tpb_coating"
    (shroud_radius - coating_dim / 2) (shroud_radius + coating_dim / 2) shroud_height
  let coating_lv : LogicalVolume := ⟨"tpb_coating", coating, "tpb_on_fibers"⟩
  let r₁ := (reg.addSolid coating).addLV coating_lv
  let core : Solid := .tubs "fiber_core"
    (shroud_radius - FIBER_DIM / 2) (shroud_radius + FIBER_DIM / 2) shroud_height
  let core_lv : LogicalVolume := ⟨"fiber_core", core, "ps_fibers"⟩
  let r₂ := (r₁.addSolid core).addLV core_lv
  let r₃ := place_pv "fiber_core" core_lv coating_lv 0 r₂
  let r₄ := r₃.tagDetector "fiber_core" ⟨"optical", 100⟩
  (r₄, coating_lv)

/-- `strings.py::set_tpb_surface`: register the LAr-to-TPB optical
surface, look both physical volumes up by name, and attach the two border
surfaces (both directions). -/
def set_tpb_surface (tpb_name lar_name : String) (reg : Registry) :
    Except String Registry :=
  match (reg.addOptical "surface_lar_to_tpb").findPV lar_name with
  | none => .error ("KeyError: " ++ lar_name)
  | some lar_pv =>
    match (reg.addOptical "surface_lar_to_tpb").findPV tpb_name with
    | none => .error ("KeyError: " ++ tpb_name)
    | some tpb_pv =>
      .ok (((reg.addOptical "surface_lar_to_tpb").addBorder
          ⟨"bsurface_lar_tpb_" ++ tpb_name, lar_pv.name, tpb_pv.name, "surface_lar_to_tpb"⟩).addBorder
        ⟨"bsurface_tpb_lar_" ++ tpb_name, tpb_pv.name, lar_pv.name, "surface_lar_to_tpb"⟩)

/-- `strings.py::set_fiber_core_surface`: register the fiber-core optical
surface, look both physical volumes up by name, and attach the border
surface from the TPB coating to the fiber core. -/
def set_fiber_core_surface (tpb_name core_name : String) (reg : Registry) :
    Except String Registry :=
  match (reg.addOptical "surface_to_fiber_core").findPV core_name with
  | none => .error ("KeyError: " ++ core_name)
  | some core_pv =>
    match (reg.addOptical "surface_to_fiber_core").findPV tpb_name with
    | none => .error ("KeyError: " ++ tpb_name)
    | some tpb_pv =>
      .ok ((reg.addOptical "surface_to_fiber_core").addBorder
        ⟨"bsurface_tpb_fiber", tpb_pv.name, core_pv.name, "surface_to_fiber_core"⟩)

/-- One `hpges` configuration entry (`name` plus
`pplus_pos_from_lar_center`, as read by `strings.py` line 235 to 236). -/
structure HpgeEntry where
  name : String
  pplus_pos_from_lar_center : ℚ
  deriving Repr, DecidableEq

/-- One iteration of the detector loop in `strings.py::build_strings`
(lines 234 to 252), at enumeration index `uid`. -/
def strings_step (lar_lv : LogicalVolume) (lar_height : ℚ) (meta : Metadata)
    (uid : Nat) (hpge : HpgeEntry) (reg : Registry) : Except String Registry :=
  let z_pos := lar_height / 2 + hpge.pplus_pos_from_lar_center
  match meta hpge.name with
  | none => .error ("KeyError: " ++ hpge.name)
  | some hpge_meta =>
    let hpge_meta := normalize_enrichment hpge_meta
    let (r₁, hpge_lv) := make_hpge hpge_meta reg
    let r₂ := place_pv hpge.name hpge_lv lar_lv z_pos r₁
    let pv : PhysVol := ⟨hpge.name, hpge_lv.name, lar_lv.name, 0, z_pos⟩
    let r₃ := r₂.tagDetector pv.name ⟨"germanium", uid⟩
    set_germanium_reflectivity pv r₃ "lar"

/-- The `for uid, hpge in enumerate(hpges)` loop of
`strings.py::build_strings`. -/
def strings_loop (lar_lv : LogicalVolume) (lar_height : ℚ) (meta : Metadata)
    (uid : Nat) (hpges : List HpgeEntry) (reg : Registry) : Except String Registry :=
  match hpges with
  | [] => .ok reg
  | h :: rest =>
    match strings_step lar_lv lar_height meta uid h reg with
    | .error e => .error e
    | .ok reg => strings_loop lar_lv lar_height meta (uid + 1) rest reg

/-- The `fiber_shroud` configuration block.  `strings.py` reads only the
`center_pos_from_lar_center` key of it; `mode`, `height_in_mm` and
`radius_in_mm` are documented but never accessed. -/
structure FiberShroudConfig where
  mode : Option String := none
  height_in_mm : Option ℚ := none
  radius_in_mm : Option ℚ := none
  center_pos_from_lar_center : ℚ
  deriving Repr, DecidableEq

/-- `strings.py::build_strings`: place every configured HPGe detector and,
when a fiber-shroud configuration is present, the fiber shroud.  The call
`build_fiber_shroud(mats=mats, reg=reg)` passes neither a height nor a
radius, so the Python defaults `shroud_height=1000` and `shroud_radius=115`
apply. -/
def build_strings (lar_lv : LogicalVolume) (hpges : List HpgeEntry)
    (meta : Metadata) (reg : Registry) (lar_height : ℚ)
    (fiber_shroud : Option FiberShroudConfig) : Except String Registry :=
  match strings_loop lar_lv lar_height meta 0 hpges reg with
  | .error e => .error e
  | .ok reg =>
    match fiber_shroud with
    | none => .ok reg
    | some fs =>
      let (r₁, shroud_lv) := build_fiber_shroud reg 1000 115
      let r₂ := place_pv "fiber_shroud" shroud_lv lar_lv
        (lar_height / 2 + fs.center_pos_from_lar_center) r₁
      match set_tpb_surface "fiber_shroud" "lar" r₂ with
      | .error e => .error e
      | .ok r₃ => set_fiber_core_surface "fiber_shroud" "fiber_core" r₃

/-! ## Source and cavern assemblers (`source.py`, `cavern.py`) -/

/-- `source.py::build_source`: a small iron tube placed in the world frame
at translation `(0, radius, z_pos)`; defaults `source_height=5`,
`source_radius=2`, `material="G4_Fe"` apply at the call site. -/
def build_source (world_lv : LogicalVolume) (radius z_pos : ℚ) (reg : Registry) :
    Registry :=
  let s : Solid := .tubs "source" 0 2 5
  let r₁ := (reg.addSolid s).addLV ⟨"source", s, "G4_Fe"⟩
  r₁.addPV ⟨"source", "source", world_lv.name, radius, z_pos⟩

/-- `cavern.py::construct_cavern`: hemisphere shell union a cylinder minus
a cylinder, placed once in the world at `z = 1.5 m`. -/
def construct_cavern (inner_radius outer_radius : ℚ) (reg : Registry)
    (mat : String) (world_lv : LogicalVolume) : Registry :=
  let r₁ := reg.addSolid (.sphere "upper_cavern" inner_radius outer_radius)
  let r₂ := r₁.addSolid (.tubs "lowercavern1" 0 outer_radius 10000)
  let r₃ := r₂.addSolid (.tubs "lowercavern2" 0 1000 4000)
  let r₄ := r₃.addSolid (.subtraction "lower_cavern" "lowercavern1" "lowercavern2")
  let cavern : Solid := .union "cavern" "upper_cavern" "lower_cavern"
  let r₅ := (r₄.addSolid cavern).addLV ⟨"cavern", cavern, mat⟩
  r₅.addPV ⟨"cavern", "cavern", world_lv.name, 0, 1500⟩

/-! ## Top-level constructor (`core.py::construct`) -/

/-- The `source` configuration block. -/
structure SourceConfig where
  pos_from_lar_center : ℚ
  deriving Repr, DecidableEq

/-- The `cavern` configuration block. -/
structure CavernConfig where
  inner_radius_in_mm : ℚ
  outer_radius_in_mm : ℚ
  deriving Repr, DecidableEq

/-- The top-level assembly configuration: every subsystem key is
independently optional. -/
structure Config where
  hpges : Option (List HpgeEntry) := none
  source : Option SourceConfig := none
  fiber_shroud : Option FiberShroudConfig := none
  cavern : Option CavernConfig := none
  deriving Repr, DecidableEq

/-- Number of parameters besides `self` declared by
`PublicMetadataProxy.__init__` in `metadata.py` (line 12,
`def __init__(self):`): it declares none. -/
def publicMetadataProxyInitArity : Nat := 0

/-- The `TypeError` message raised by Python when a call passes surplus
positional arguments. -/
def arityErrorMsg : String :=
  "TypeError: PublicMetadataProxy takes no positional arguments but one was given"

/-- Python positional-call semantics: a call whose number of positional
arguments differs from the declared parameter count raises `TypeError`
before the body runs.  `core.py` line 95 calls `PublicMetadataProxy(dets)`
with one positional argument. -/
def pyCallArityCheck (arity nargs : Nat) : Except String Unit :=
  if nargs = arity then .ok () else .error arityErrorMsg

/-- The world logical volume created by `core.py::construct`
(`geant4.solid.Box("world", 50, 50, 50, reg, "m")` with material
`G4_Galactic`). -/
def construct_world_lv : LogicalVolume := ⟨"world", .box "world" 50 50 50, "G4_Galactic"⟩

/-- The fresh registry holding only the world volume, with the world set
(`reg.setWorld(world_lv)`). -/
def construct_reg0 : Registry :=
  { (({} : Registry).addSolid (.box "world" 50 50 50)).addLV construct_world_lv with
    world := some "world" }

/-- `core.py::construct`, from the point where a metadata table is in
hand: world volume, cryostat, detector strings, source and cavern, in
order.  `det_meta` is `merge_configs(lmeta...diodes, extra_detectors)`. -/
def constructCore (det_meta : Metadata) (cfg : Config) (d : CryoDims) :
    Except String Registry :=
  match build_cryostat d construct_world_lv construct_reg0 with
  | .error e => .error e
  | .ok reg₁ =>
    match reg₁.logicalVolumes.reverse.find? (fun lv => lv.name = "lar") with
    | none => .error "KeyError: lar"
    | some lar_lv =>
      match build_strings lar_lv (cfg.hpges.getD []) det_meta reg₁
        (d.inner_lower_height + d.inner_upper_height - d.gas_argon_height)
        cfg.fiber_shroud with
      | .error e => .error e
      | .ok reg₂ =>
        let reg₃ :=
          match cfg.source with
          | none => reg₂
          | some s => build_source construct_world_lv (d.outer_radius + d.lead_air_gap / 2)
              (s.pos_from_lar_center
                + (d.inner_lower_height + d.inner_upper_height - d.gas_argon_height) / 2
                + (d.inner_lower_thickness
                  - (d.inner_lower_height + d.inner_upper_height) / 2)) reg₂
        let reg₄ :=
          match cfg.cavern with
          | none => reg₃
          | some c => construct_cavern c.inner_radius_in_mm c.outer_radius_in_mm reg₃
              "rock" construct_world_lv
        .ok reg₄

/-- `core.py::construct`.  `internalMeta` models the availability of the
LEGEND-internal `LegendMetadata` store (`None` when the `LegendMetadata`
probe fails with a suppressed `GitCommandError`); `publicMeta` models the
diode table the public-testdata proxy would serve.  When `public_geometry`
is false and the internal store is unavailable, construction fails with the
explicit safety-gate message; when the public fallback is taken, `core.py`
line 95 calls `PublicMetadataProxy(dets)` with one positional argument
while `metadata.py` declares `__init__(self)` with none, so the call
raises `TypeError`. -/
def construct (config : Option Config) (public_geometry : Bool)
    (internalMeta : Option Metadata) (publicMeta : Metadata)
    (extra_detectors : Option Metadata) (d : CryoDims) : Except String Registry :=
  let lmeta : Option Metadata := if public_geometry then none else internalMeta
  match lmeta with
  | some m => constructCore (merge_configs m extra_detectors) (config.getD {}) d
  | none =>
    if public_geometry = false then
      .error "cannot construct geometry from public testdata only, if not explicitly instructed"
    else
      match pyCallArityCheck publicMetadataProxyInitArity 1 with
      | .error e => .error e
      | .ok _ => constructCore (merge_configs publicMeta extra_detectors) (config.getD {}) d

/-! ## Derived geometric quantities

The six-point contours produced by the profile generators all have the
shape `([0, r1, r1, r2, r2, 0], [0, 0, zstep, zstep, ztop, ztop])`: a
solid of revolution whose outer radius is `r1` below the height `zstep`
and `r2` from there up to `ztop`. -/

/-- The six-point contour with lower radius `r1` up to `zstep` and upper
radius `r2` up to `ztop`. -/
def contour (r1 r2 zstep ztop : ℚ) : List ℚ × List ℚ :=
  ([0, r1, r1, r2, r2, 0], [0, 0, zstep, zstep, ztop, ztop])

/-- Outer radius of the revolved contour at height `z`. -/
def contourRadiusAt (r1 r2 zstep : ℚ) (z : ℚ) : ℚ :=
  if z < zstep then r1 else r2

/-- Outer radius of the LAr solid at height `z` of its local frame, read
off `lar_profile`. -/
def lar_outer_radius_at (d : CryoDims) (z : ℚ) : ℚ :=
  contourRadiusAt d.inner_radius
    (d.inner_radius + d.inner_lower_thickness / 2 - d.inner_upper_thickness / 2)
    d.inner_lower_height z

/-- Outer radius of the inner-cryostat solid at height `z` of its local
frame, read off `inner_cryostat_profile`. -/
def inner_outer_radius_at (d : CryoDims) (z : ℚ) : ℚ :=
  contourRadiusAt (d.inner_radius + d.inner_lower_thickness)
    (d.inner_radius + d.inner_lower_thickness / 2 + d.inner_upper_thickness / 2)
    (d.inner_lower_height + d.inner_lower_thickness) z

/-- Wall thickness of the inner cryostat at height `z` of its local frame:
the lower thickness below the thickness step of the profile, the upper
thickness above it (`cryo.py` module docstring and
`inner_cryostat_profile`). -/
def inner_wall_thickness_at (d : CryoDims) (z : ℚ) : ℚ :=
  if z < d.inner_lower_height + d.inner_lower_thickness then d.inner_lower_thickness
  else d.inner_upper_thickness

/-- Inner radius of the inner-cryostat vessel wall at height `z` of its
local frame: the outer radius of the profile minus the wall thickness
there. -/
def inner_wall_inner_radius_at (d : CryoDims) (z : ℚ) : ℚ :=
  inner_outer_radius_at d z - inner_wall_thickness_at d z

/-- Local height at which `build_cryostat` places the LAr volume inside
the inner cryostat (`cryo.py` line 377). -/
def lar_z_in_inner (d : CryoDims) : ℚ := d.inner_lower_thickness

/-- Top height of the LAr profile (its largest height entry). -/
def lar_profile_top (d : CryoDims) : ℚ :=
  d.inner_lower_height + d.inner_upper_height - TOL

/-- The reference shift computed by `build_cryostat` (`cryo.py` line 361):
half of the sum of the lower and upper inner-vessel section heights. -/
def reference_shift (d : CryoDims) : ℚ :=
  (d.inner_lower_height + d.inner_upper_height) / 2

/-- The LAr height computed by `core.py` lines 125 to 127 (commented
there as the height of the LAr): the sum of the two inner-vessel section
heights minus the gaseous-argon height. -/
def lar_height_core (d : CryoDims) : ℚ :=
  d.inner_lower_height + d.inner_upper_height - d.gas_argon_height

/-- A valid cryostat dimension input: every named dimension is
nonnegative, the upper wall is at most as thick as the lower wall (the
taper described in the `cryo.py` docstring), and the vessel radius is at
least the overlap tolerance. -/
def ValidDims (d : CryoDims) : Prop :=
  0 ≤ d.inner_radius ∧ 0 ≤ d.inner_upper_thickness ∧ 0 ≤ d.inner_upper_height ∧
  0 ≤ d.inner_lower_thickness ∧ 0 ≤ d.inner_lower_height ∧ 0 ≤ d.outer_radius ∧
  0 ≤ d.outer_height ∧ 0 ≤ d.outer_thickness ∧ 0 ≤ d.top_height ∧ 0 ≤ d.top_radius ∧
  0 ≤ d.gas_argon_height ∧ 0 ≤ d.lead_air_gap ∧ 0 ≤ d.lead_thickness ∧
  d.inner_upper_thickness ≤ d.inner_lower_thickness ∧ TOL ≤ d.inner_radius

instance (d : CryoDims) : Decidable (ValidDims d) := by
  unfold ValidDims; infer_instance

/-! ## Sample concrete inputs (for witnesses and counterexamples) -/

/-- A concrete, valid set of cryostat dimensions. -/
def sampleDims : CryoDims where
  inner_radius := 450
  inner_upper_thickness := 5
  inner_upper_height := 1300
  inner_lower_thickness := 10
  inner_lower_height := 1100
  outer_radius := 500
  outer_height := 2700
  outer_thickness := 10
  top_height := 30
  top_radius := 520
  gas_argon_height := 200
  lead_air_gap := 50
  lead_thickness := 150

instance : Inhabited HpgeMeta := ⟨⟨"", ⟨⟨none⟩⟩⟩⟩

/-- A total diode table serving every detector name, with unset
enrichment fraction. -/
def sampleMeta : Metadata := fun n => some ⟨n, ⟨⟨none⟩⟩⟩

/-- A total diode table serving every detector name, with enrichment
fraction `0.88` set. -/
def sampleMetaSet : Metadata := fun n => some ⟨n, ⟨⟨some (88 / 100)⟩⟩⟩

/-! ## Registry lemmas -/

theorem findPV_addPV (r : Registry) (pv : PhysVol) (n : String) :
    (r.addPV pv).findPV n = if pv.name = n then some pv else r.findPV n := by
  simp only [Registry.findPV, Registry.addPV, List.reverse_append, List.reverse_cons,
    List.reverse_nil, List.nil_append, List.cons_append, List.find?]
  by_cases h : pv.name = n
  · simp [h]
  · simp [h]

theorem findPV_addSolid (r : Registry) (s : Solid) (n : String) :
    (r.addSolid s).findPV n = r.findPV n := rfl

theorem findPV_addLV (r : Registry) (lv : LogicalVolume) (n : String) :
    (r.addLV lv).findPV n = r.findPV n := rfl

theorem findPV_addOptical (r : Registry) (s n : String) :
    (r.addOptical s).findPV n = r.findPV n := rfl

theorem findPV_addBorder (r : Registry) (b : BorderSurf) (n : String) :
    (r.addBorder b).findPV n = r.findPV n := rfl

theorem findPV_tagDetector (r : Registry) (m : String) (i : RemageDetectorInfo)
    (n : String) : (r.tagDetector m i).findPV n = r.findPV n := rfl

theorem findPV_recordFactoryCall (r : Registry) (m : HpgeMeta) (n : String) :
    (r.recordFactoryCall m).findPV n = r.findPV n := rfl

theorem mem_pvNames (r : Registry) (n : String) :
    n ∈ r.pvNames ↔ ∃ pv ∈ r.physicalVolumes, pv.name = n := by
  simp [Registry.pvNames, List.mem_map, eq_comm]

theorem findPV_isSome_of_mem {r : Registry} {n : String} (h : n ∈ r.pvNames) :
    ∃ pv, r.findPV n = some pv := by
  rw [mem_pvNames] at h
  obtain ⟨pv, hmem, hname⟩ := h
  have hrev : pv ∈ r.physicalVolumes.reverse := List.mem_reverse.mpr hmem
  have : (r.physicalVolumes.reverse.find? (fun q => q.name = n)).isSome := by
    rw [List.find?_isSome]
    exact ⟨pv, hrev, by simp [hname]⟩
  obtain ⟨q, hq⟩ := Option.isSome_iff_exists.mp this
  exact ⟨q, hq⟩

/-- The registry fields tracked through the assembly pipeline (everything
except surfaces). -/
def Registry.core (r : Registry) :
    List Solid × List LogicalVolume × List PhysVol ×
      List (String × RemageDetectorInfo) × List HpgeMeta × Option String :=
  (r.solids, r.logicalVolumes, r.physicalVolumes, r.activeDetectors,
    r.hpgeFactoryCalls, r.world)

/-! ## Characterization of the detector-string loop -/

/-- The (normalized) metadata record the loop body obtains for an entry. -/
def hmOf (m : Metadata) (h : HpgeEntry) : HpgeMeta :=
  normalize_enrichment ((m h.name).getD default)

/-- The physical volume the loop body places for an entry. -/
def hpgePV (larName : String) (lar_height : ℚ) (m : Metadata) (h : HpgeEntry) :
    PhysVol :=
  ⟨h.name, (hmOf m h).name, larName, 0,
    lar_height / 2 + h.pplus_pos_from_lar_center⟩

theorem strings_step_ok (lar_lv : LogicalVolume) (lh : ℚ) (m : Metadata)
    (uid : Nat) (h : HpgeEntry) (reg r : Registry)
    (hok : strings_step lar_lv lh m uid h reg = .ok r) :
    (m h.name).isSome = true ∧
    r.solids = reg.solids ++ [.hpge (hmOf m h).name] ∧
    r.logicalVolumes =
      reg.logicalVolumes ++ [⟨(hmOf m h).name, .hpge (hmOf m h).name, "enriched_germanium"⟩] ∧
    r.physicalVolumes = reg.physicalVolumes ++ [hpgePV lar_lv.name lh m h] ∧
    r.activeDetectors = reg.activeDetectors ++ [(h.name, ⟨"germanium", uid⟩)] ∧
    r.hpgeFactoryCalls = reg.hpgeFactoryCalls ++ [hmOf m h] ∧
    r.world = reg.world := by
  unfold strings_step make_hpge set_germanium_reflectivity at hok
  cases hmeta : m h.name with
  | none => rw [hmeta] at hok; exact absurd hok (by simp)
  | some hm =>
    rw [hmeta] at hok
    simp only at hok
    split at hok
    · exact absurd hok (by simp)
    · simp only [Except.ok.injEq] at hok
      subst hok
      refine ⟨rfl, ?_, ?_, ?_, ?_, ?_, ?_⟩ <;>
        simp [Registry.addBorder, Registry.addOptical, Registry.tagDetector, place_pv,
          Registry.addPV, Registry.addLV, Registry.addSolid, Registry.recordFactoryCall,
          hmOf, hpgePV, hmeta]

@[simp] theorem pvNames_addSolid (r : Registry) (s : Solid) :
    (r.addSolid s).pvNames = r.pvNames := rfl

@[simp] theorem pvNames_addLV (r : Registry) (lv : LogicalVolume) :
    (r.addLV lv).pvNames = r.pvNames := rfl

@[simp] theorem pvNames_addOptical (r : Registry) (s : String) :
    (r.addOptical s).pvNames = r.pvNames := rfl

@[simp] theorem pvNames_addBorder (r : Registry) (b : BorderSurf) :
    (r.addBorder b).pvNames = r.pvNames := rfl

@[simp] theorem pvNames_tagDetector (r : Registry) (n : String) (i : RemageDetectorInfo) :
    (r.tagDetector n i).pvNames = r.pvNames := rfl

@[simp] theorem pvNames_recordFactoryCall (r : Registry) (m : HpgeMeta) :
    (r.recordFactoryCall m).pvNames = r.pvNames := rfl

@[simp] theorem pvNames_addPV (r : Registry) (pv : PhysVol) :
    (r.addPV pv).pvNames = r.pvNames ++ [pv.name] := by
  simp [Registry.pvNames, Registry.addPV]

theorem set_germanium_isOk (pv : PhysVol) (reg : Registry) (lar_name : String)
    (h : lar_name ∈ reg.pvNames) :
    ∃ r, set_germanium_reflectivity pv reg lar_name = .ok r := by
  unfold set_germanium_reflectivity
  obtain ⟨q, hq⟩ :=
    findPV_isSome_of_mem (show lar_name ∈ (reg.addOptical "surface_to_germanium").pvNames from h)
  rw [hq]
  exact ⟨_, rfl⟩

theorem strings_step_isOk (lar_lv : LogicalVolume) (lh : ℚ) (m : Metadata)
    (uid : Nat) (h : HpgeEntry) (reg : Registry)
    (hlar : "lar" ∈ reg.pvNames) (hsome : (m h.name).isSome = true) :
    ∃ r, strings_step lar_lv lh m uid h reg = .ok r := by
  obtain ⟨hm, hm_eq⟩ := Option.isSome_iff_exists.mp hsome
  unfold strings_step
  rw [hm_eq]
  simp only [make_hpge]
  apply set_germanium_isOk
  simp only [place_pv, pvNames_tagDetector, pvNames_addPV, pvNames_addLV, pvNames_addSolid,
    pvNames_recordFactoryCall]
  exact List.mem_append_left _ hlar

theorem strings_loop_ok (lar_lv : LogicalVolume) (lh : ℚ) (m : Metadata) :
    ∀ (hpges : List HpgeEntry) (uid : Nat) (reg r : Registry),
      strings_loop lar_lv lh m uid hpges reg = .ok r →
      r.solids = reg.solids ++ hpges.map (fun h => .hpge (hmOf m h).name) ∧
      r.logicalVolumes = reg.logicalVolumes ++
        hpges.map (fun h => ⟨(hmOf m h).name, .hpge (hmOf m h).name, "enriched_germanium"⟩) ∧
      r.physicalVolumes = reg.physicalVolumes ++ hpges.map (hpgePV lar_lv.name lh m) ∧
      r.activeDetectors = reg.activeDetectors ++
        (List.enumFrom uid hpges).map (fun p => (p.2.name, ⟨"germanium", p.1⟩)) ∧
      r.hpgeFactoryCalls = reg.hpgeFactoryCalls ++ hpges.map (hmOf m) ∧
      r.world = reg.world := by
  intro hpges
  induction hpges with
  | nil =>
    intro uid reg r hok
    simp only [strings_loop, Except.ok.injEq] at hok
    subst hok
    simp
  | cons h t ih =>
    intro uid reg r hok
    rw [strings_loop] at hok
    cases hstep : strings_step lar_lv lh m uid h reg with
    | error e => rw [hstep] at hok; exact absurd hok (by simp)
    | ok reg1 =>
      rw [hstep] at hok
      obtain ⟨-, hs, hl, hp, ha, hf, hw⟩ := strings_step_ok _ _ _ _ _ _ _ hstep
      obtain ⟨hs2, hl2, hp2, ha2, hf2, hw2⟩ := ih (uid + 1) reg1 r hok
      refine ⟨?_, ?_, ?_, ?_, ?_, ?_⟩ <;>
        simp [hs2, hs, hl2, hl, hp2, hp, ha2, ha, hf2, hf, hw2, hw, List.enumFrom]

theorem strings_loop_isOk (lar_lv : LogicalVolume) (lh : ℚ) (m : Metadata) :
    ∀ (hpges : List HpgeEntry) (uid : Nat) (reg : Registry),
      "lar" ∈ reg.pvNames →
      (∀ h ∈ hpges, (m h.name).isSome = true) →
      ∃ r, strings_loop lar_lv lh m uid hpges reg = .ok r := by
  intro hpges
  induction hpges with
  | nil => exact fun uid reg _ _ => ⟨reg, rfl⟩
  | cons h t ih =>
    intro uid reg hlar hmeta
    obtain ⟨r1, hstep⟩ :=
      strings_step_isOk lar_lv lh m uid h reg hlar (hmeta h (by simp))
    obtain ⟨-, -, -, hp, -, -, -⟩ := strings_step_ok _ _ _ _ _ _ _ hstep
    have hlar1 : "lar" ∈ r1.pvNames := by
      simp only [Registry.pvNames, hp, List.map_append]
      exact List.mem_append_left _ hlar
    obtain ⟨r2, hloop⟩ := ih (uid + 1) r1 hlar1 (fun x hx => hmeta x (by simp [hx]))
    refine ⟨r2, ?_⟩
    rw [strings_loop, hstep]
    simpa using hloop

/-! ## Characterization of `build_strings` -/

/-- The TPB coating tube registered by `build_fiber_shroud` as called from
`build_strings` (height 1000, radius 115). -/
def coating_tubs : Solid :=
  .tubs "tpb_coating" (115 - (FIBER_DIM + 2 * TPB_THICKNESS_UM / 1000) / 2)
    (115 + (FIBER_DIM + 2 * TPB_THICKNESS_UM / 1000) / 2) 1000

/-- The fiber-core tube registered by `build_fiber_shroud` as called from
`build_strings` (height 1000, radius 115). -/
def core_tubs : Solid :=
  .tubs "fiber_core" (115 - FIBER_DIM / 2) (115 + FIBER_DIM / 2) 1000

/-- The fiber-core placement inside the coating. -/
def fiber_core_pv : PhysVol := ⟨"fiber_core", "fiber_core", "tpb_coating", 0, 0⟩

/-- The fiber-shroud placement inside the LAr volume. -/
def fiber_shroud_pv (larName : String) (lh center : ℚ) : PhysVol :=
  ⟨"fiber_shroud", "tpb_coating", larName, 0, lh / 2 + center⟩

theorem core_addOptical (r : Registry) (s : String) : (r.addOptical s).core = r.core := rfl

theorem core_addBorder (r : Registry) (b : BorderSurf) : (r.addBorder b).core = r.core := rfl

theorem core_set_tpb {t l : String} {reg r : Registry}
    (h : set_tpb_surface t l reg = .ok r) : r.core = reg.core := by
  unfold set_tpb_surface at h
  split at h
  · exact absurd h (by simp)
  · split at h
    · exact absurd h (by simp)
    · simp only [Except.ok.injEq] at h
      subst h
      rfl

theorem core_set_fiber {t c : String} {reg r : Registry}
    (h : set_fiber_core_surface t c reg = .ok r) : r.core = reg.core := by
  unfold set_fiber_core_surface at h
  split at h
  · exact absurd h (by simp)
  · split at h
    · exact absurd h (by simp)
    · simp only [Except.ok.injEq] at h
      subst h
      rfl

theorem core_set_steel {a b : String} {reg r : Registry}
    (h : set_steel_reflectivity reg a b = .ok r) : r.core = reg.core := by
  unfold set_steel_reflectivity at h
  split at h
  · exact absurd h (by simp)
  · split at h
    · exact absurd h (by simp)
    · simp only [Except.ok.injEq] at h
      subst h
      rfl

theorem build_strings_ok_none (lar_lv : LogicalVolume) (hpges : List HpgeEntry)
    (m : Metadata) (reg : Registry) (lh : ℚ) (r : Registry)
    (hok : build_strings lar_lv hpges m reg lh none = .ok r) :
    r.solids = reg.solids ++ hpges.map (fun h => .hpge (hmOf m h).name) ∧
    r.logicalVolumes = reg.logicalVolumes ++
      hpges.map (fun h => ⟨(hmOf m h).name, .hpge (hmOf m h).name, "enriched_germanium"⟩) ∧
    r.physicalVolumes = reg.physicalVolumes ++ hpges.map (hpgePV lar_lv.name lh m) ∧
    r.activeDetectors = reg.activeDetectors ++
      (List.enumFrom 0 hpges).map (fun p => (p.2.name, ⟨"germanium", p.1⟩)) ∧
    r.hpgeFactoryCalls = reg.hpgeFactoryCalls ++ hpges.map (hmOf m) ∧
    r.world = reg.world := by
  unfold build_strings at hok
  cases hloop : strings_loop lar_lv lh m 0 hpges reg with
  | error e => rw [hloop] at hok; exact absurd hok (by simp)
  | ok r0 =>
    rw [hloop] at hok
    simp only [Except.ok.injEq] at hok
    subst hok
    exact strings_loop_ok _ _ _ _ _ _ _ hloop

theorem build_strings_ok_some (lar_lv : LogicalVolume) (hpges : List HpgeEntry)
    (m : Metadata) (reg : Registry) (lh : ℚ) (f : FiberShroudConfig) (r : Registry)
    (hok : build_strings lar_lv hpges m reg lh (some f) = .ok r) :
    r.solids = reg.solids ++ hpges.map (fun h => .hpge (hmOf m h).name) ++
      [coating_tubs, core_tubs] ∧
    r.logicalVolumes = reg.logicalVolumes ++
      hpges.map (fun h => ⟨(hmOf m h).name, .hpge (hmOf m h).name, "enriched_germanium"⟩) ++
      [⟨"tpb_coating", coating_tubs, "tpb_on_fibers"⟩, ⟨"fiber_core", core_tubs, "ps_fibers"⟩] ∧
    r.physicalVolumes = reg.physicalVolumes ++ hpges.map (hpgePV lar_lv.name lh m) ++
      [fiber_core_pv, fiber_shroud_pv lar_lv.name lh f.center_pos_from_lar_center] ∧
    r.activeDetectors = reg.activeDetectors ++
      (List.enumFrom 0 hpges).map (fun p => (p.2.name, ⟨"germanium", p.1⟩)) ++
      [("fiber_core", ⟨"optical", 100⟩)] ∧
    r.hpgeFactoryCalls = reg.hpgeFactoryCalls ++ hpges.map (hmOf m) ∧
    r.world = reg.world := by
  unfold build_strings at hok
  cases hloop : strings_loop lar_lv lh m 0 hpges reg with
  | error e => rw [hloop] at hok; exact absurd hok (by simp)
  | ok r0 =>
    rw [hloop] at hok
    obtain ⟨hs0, hl0, hp0, ha0, hf0, hw0⟩ := strings_loop_ok _ _ _ _ _ _ _ hloop
    simp only [build_fiber_shroud] at hok
    split at hok
    · exact absurd hok (by simp)
    · rename_i r3 htpb
      have hcore3 := core_set_tpb htpb
      have hcore4 := core_set_fiber hok
      rw [hcore3] at hcore4
      simp only [Registry.core, place_pv, Registry.addPV, Registry.tagDetector,
        Registry.addLV, Registry.addSolid, Prod.mk.injEq] at hcore4
      obtain ⟨c4s, c4l, c4p, c4a, c4f, c4w⟩ := hcore4
      refine ⟨?_, ?_, ?_, ?_, ?_, ?_⟩ <;>
        simp [c4s, hs0, c4l, hl0, c4p, hp0, c4a, ha0, c4f, hf0, c4w, hw0,
          fiber_core_pv, fiber_shroud_pv, coating_tubs, core_tubs]

theorem not_mem_of_findPV_none {r : Registry} {n : String}
    (h : r.findPV n = none) : n ∉ r.pvNames := by
  intro hmem
  obtain ⟨q, hq⟩ := findPV_isSome_of_mem hmem
  rw [h] at hq
  exact absurd hq (by simp)

theorem physicalVolumes_eq_of_core {r r' : Registry} (h : r.core = r'.core) :
    r.physicalVolumes = r'.physicalVolumes := congrArg (fun t => t.2.2.1) h

theorem pvNames_eq_of_core {r r' : Registry} (h : r.core = r'.core) :
    r.pvNames = r'.pvNames := by
  unfold Registry.pvNames
  rw [physicalVolumes_eq_of_core h]

theorem set_tpb_error {t l : String} {reg : Registry} {e : String}
    (h : set_tpb_surface t l reg = .error e) :
    l ∉ reg.pvNames ∨ t ∉ reg.pvNames := by
  unfold set_tpb_surface at h
  split at h
  · rename_i hfind
    exact Or.inl (not_mem_of_findPV_none hfind)
  · split at h
    · rename_i hfind
      exact Or.inr (not_mem_of_findPV_none hfind)
    · exact absurd h (by simp)

theorem set_fiber_core_error {t c : String} {reg : Registry} {e : String}
    (h : set_fiber_core_surface t c reg = .error e) :
    c ∉ reg.pvNames ∨ t ∉ reg.pvNames := by
  unfold set_fiber_core_surface at h
  split at h
  · rename_i hfind
    exact Or.inl (not_mem_of_findPV_none hfind)
  · split at h
    · rename_i hfind
      exact Or.inr (not_mem_of_findPV_none hfind)
    · exact absurd h (by simp)

theorem set_steel_error {a b : String} {reg : Registry} {e : String}
    (h : set_steel_reflectivity reg a b = .error e) :
    a ∉ reg.pvNames ∨ b ∉ reg.pvNames := by
  unfold set_steel_reflectivity at h
  split at h
  · rename_i hfind
    exact Or.inl (not_mem_of_findPV_none hfind)
  · split at h
    · rename_i hfind
      exact Or.inr (not_mem_of_findPV_none hfind)
    · exact absurd h (by simp)

theorem build_strings_isOk (lar_lv : LogicalVolume) (hpges : List HpgeEntry)
    (m : Metadata) (reg : Registry) (lh : ℚ) (fs : Option FiberShroudConfig)
    (hlar : "lar" ∈ reg.pvNames)
    (hmeta : ∀ h ∈ hpges, (m h.name).isSome = true) :
    ∃ r, build_strings lar_lv hpges m reg lh fs = .ok r := by
  cases hbs : build_strings lar_lv hpges m reg lh fs with
  | ok r => exact ⟨r, rfl⟩
  | error e =>
    exfalso
    unfold build_strings at hbs
    obtain ⟨r0, hloop⟩ := strings_loop_isOk lar_lv lh m hpges 0 reg hlar hmeta
    rw [hloop] at hbs
    obtain ⟨-, -, hp0, -, -, -⟩ := strings_loop_ok _ _ _ _ _ _ _ hloop
    have hlar0 : "lar" ∈ r0.pvNames := by
      simp only [Registry.pvNames, hp0, List.map_append]
      exact List.mem_append_left _ hlar
    cases fs with
    | none => exact absurd hbs (by simp)
    | some f =>
      simp only [build_fiber_shroud] at hbs
      split at hbs
      · rename_i htpb
        rcases set_tpb_error htpb with hn | hn <;>
        · apply hn
          simp only [place_pv, pvNames_tagDetector, pvNames_addPV, pvNames_addLV,
            pvNames_addSolid, List.mem_append]
          simp [hlar0]
      · rename_i r3 htpb
        rcases set_fiber_core_error hbs with hn | hn <;>
        · apply hn
          rw [pvNames_eq_of_core (core_set_tpb htpb)]
          simp only [place_pv, pvNames_tagDetector, pvNames_addPV, pvNames_addLV,
            pvNames_addSolid, List.mem_append]
          simp

/-! ## Characterization of `build_cryostat` -/

/-- The six cryostat logical volumes, in registration order. -/
def cryostat_lvs (d : CryoDims) : List LogicalVolume :=
  [ ⟨"inner_cryostat", .polycone "inner_cryostat" (inner_cryostat_profile d).1
      (inner_cryostat_profile d).2, "metal_steel"⟩,
    ⟨"lar", .polycone "lar" (lar_profile d).1 (lar_profile d).2, "liquidargon"⟩,
    ⟨"gaseous_argon", .polycone "gaseous_argon" (gaseous_argon_profile d).1
      (gaseous_argon_profile d).2, "G4_Ar"⟩,
    ⟨"outer_cryostat", .polycone "outer_cryostat" (outer_cryostat_profile d).1
      (outer_cryostat_profile d).2, "metal_steel"⟩,
    ⟨"cryostat_lid", .polycone "cryostat_lid" (cryostat_lid_profile d).1
      (cryostat_lid_profile d).2, "metal_steel"⟩,
    ⟨"lead_shield", .polycone "lead_shield" (lead_profile d).1 (lead_profile d).2, "G4_Pb"⟩ ]

/-- The inner-cryostat placement: in the world, at minus the reference
shift. -/
def inner_cryostat_pv (d : CryoDims) (w : String) : PhysVol :=
  ⟨"inner_cryostat", "inner_cryostat", w, 0, -reference_shift d⟩

/-- The six cryostat placements, in registration order. -/
def cryostat_pvs (d : CryoDims) (w : String) : List PhysVol :=
  [ inner_cryostat_pv d w,
    ⟨"lar", "lar", "inner_cryostat", 0, d.inner_lower_thickness⟩,
    ⟨"gaseous_argon", "gaseous_argon", "lar", 0,
      d.inner_lower_height + d.inner_upper_height - d.gas_argon_height⟩,
    ⟨"outer_cryostat", "outer_cryostat", w, 0, -150 - d.inner_lower_thickness - reference_shift d⟩,
    ⟨"cryostat_lid", "cryostat_lid", w, 0,
      d.inner_lower_height + d.inner_upper_height + 3 - reference_shift d⟩,
    ⟨"lead_shield", "lead_shield", w, 0,
      -150 - 2 * d.outer_thickness - d.lead_air_gap - reference_shift d⟩ ]

theorem build_cryostat_ok (d : CryoDims) (w : LogicalVolume) (reg r : Registry)
    (hok : build_cryostat d w reg = .ok r) :
    r.solids = reg.solids ++ (cryostat_lvs d).map LogicalVolume.solid ∧
    r.logicalVolumes = reg.logicalVolumes ++ cryostat_lvs d ∧
    r.physicalVolumes = reg.physicalVolumes ++ cryostat_pvs d w.name ∧
    r.activeDetectors = reg.activeDetectors ∧
    r.hpgeFactoryCalls = reg.hpgeFactoryCalls ∧
    r.world = reg.world := by
  unfold build_cryostat at hok
  simp only [construct_polycone] at hok
  split at hok
  · exact absurd hok (by simp)
  · rename_i r5 hsteel
    simp only [Except.ok.injEq] at hok
    subst hok
    have hc := core_set_steel hsteel
    simp only [Registry.core, place_pv, Registry.addPV, Registry.addLV, Registry.addSolid,
      Prod.mk.injEq] at hc
    obtain ⟨cs, cl, cp, ca, cf, cw⟩ := hc
    refine ⟨?_, ?_, ?_, ?_, ?_, ?_⟩ <;>
      simp [place_pv, Registry.addPV, Registry.addLV, Registry.addSolid, Registry.pvNames,
        cs, cl, cp, ca, cf, cw, cryostat_lvs, cryostat_pvs, inner_cryostat_pv, reference_shift]

theorem build_cryostat_isOk (d : CryoDims) (w : LogicalVolume) (reg : Registry) :
    ∃ r, build_cryostat d w reg = .ok r := by
  cases hbc : build_cryostat d w reg with
  | ok r => exact ⟨r, rfl⟩
  | error e =>
    exfalso
    unfold build_cryostat at hbc
    simp only [construct_polycone] at hbc
    split at hbc
    · rename_i hsteel
      rcases set_steel_error hsteel with hn | hn <;>
      · apply hn
        simp only [place_pv, pvNames_addPV, pvNames_addLV, pvNames_addSolid, List.mem_append]
        simp
    · exact absurd hbc (by simp)

/-! ## Characterization of `constructCore` -/

/-- The logical volume the detector-shape factory registers for an
entry. -/
def hpge_lv_of (m : Metadata) (h : HpgeEntry) : LogicalVolume :=
  ⟨(hmOf m h).name, .hpge (hmOf m h).name, "enriched_germanium"⟩

/-- Solids added when a fiber-shroud block is configured. -/
def fiber_solids : Option FiberShroudConfig → List Solid
  | none => []
  | some _ => [coating_tubs, core_tubs]

/-- Logical volumes added when a fiber-shroud block is configured. -/
def fiber_lvs : Option FiberShroudConfig → List LogicalVolume
  | none => []
  | some _ => [⟨"tpb_coating", coating_tubs, "tpb_on_fibers"⟩, ⟨"fiber_core", core_tubs, "ps_fibers"⟩]

/-- Physical volumes added when a fiber-shroud block is configured. -/
def fiber_pvs (larName : String) (lh : ℚ) : Option FiberShroudConfig → List PhysVol
  | none => []
  | some f => [fiber_core_pv, fiber_shroud_pv larName lh f.center_pos_from_lar_center]

/-- Active-detector tags added when a fiber-shroud block is configured. -/
def fiber_dets : Option FiberShroudConfig → List (String × RemageDetectorInfo)
  | none => []
  | some _ => [("fiber_core", ⟨"optical", 100⟩)]

/-- Solids added when a source block is configured. -/
def source_solids : Option SourceConfig → List Solid
  | none => []
  | some _ => [.tubs "source" 0 2 5]

/-- Logical volumes added when a source block is configured. -/
def source_lvs : Option SourceConfig → List LogicalVolume
  | none => []
  | some _ => [⟨"source", .tubs "source" 0 2 5, "G4_Fe"⟩]

/-- The source placement: in the world frame, radially displaced by the
outer radius plus half the air gap, vertically at the configured offset
shifted into world coordinates. -/
def source_placement (d : CryoDims) (s : SourceConfig) : PhysVol :=
  ⟨"source", "source", "world", d.outer_radius + d.lead_air_gap / 2,
    s.pos_from_lar_center + lar_height_core d / 2
      + (d.inner_lower_thickness - (d.inner_lower_height + d.inner_upper_height) / 2)⟩

/-- Physical volumes added when a source block is configured. -/
def source_pvs (d : CryoDims) : Option SourceConfig → List PhysVol
  | none => []
  | some s => [source_placement d s]

/-- Solids added when a cavern block is configured. -/
def cavern_solids : Option CavernConfig → List Solid
  | none => []
  | some c =>
    [ .sphere "upper_cavern" c.inner_radius_in_mm c.outer_radius_in_mm,
      .tubs "lowercavern1" 0 c.outer_radius_in_mm 10000,
      .tubs "lowercavern2" 0 1000 4000,
      .subtraction "lower_cavern" "lowercavern1" "lowercavern2",
      .union "cavern" "upper_cavern" "lower_cavern" ]

/-- Logical volumes added when a cavern block is configured. -/
def cavern_lvs : Option CavernConfig → List LogicalVolume
  | none => []
  | some _ => [⟨"cavern", .union "cavern" "upper_cavern" "lower_cavern", "rock"⟩]

/-- Physical volumes added when a cavern block is configured. -/
def cavern_pvs : Option CavernConfig → List PhysVol
  | none => []
  | some _ => [⟨"cavern", "cavern", "world", 0, 1500⟩]

theorem build_strings_ok (lar_lv : LogicalVolume) (hpges : List HpgeEntry)
    (m : Metadata) (reg : Registry) (lh : ℚ) (fs : Option FiberShroudConfig)
    (r : Registry) (hok : build_strings lar_lv hpges m reg lh fs = .ok r) :
    r.solids = reg.solids ++ hpges.map (fun h => .hpge (hmOf m h).name) ++ fiber_solids fs ∧
    r.logicalVolumes = reg.logicalVolumes ++ hpges.map (hpge_lv_of m) ++ fiber_lvs fs ∧
    r.physicalVolumes = reg.physicalVolumes ++ hpges.map (hpgePV lar_lv.name lh m) ++
      fiber_pvs lar_lv.name lh fs ∧
    r.activeDetectors = reg.activeDetectors ++
      (List.enumFrom 0 hpges).map (fun p => (p.2.name, ⟨"germanium", p.1⟩)) ++ fiber_dets fs ∧
    r.hpgeFactoryCalls = reg.hpgeFactoryCalls ++ hpges.map (hmOf m) ∧
    r.world = reg.world := by
  cases fs with
  | none =>
    obtain ⟨h1, h2, h3, h4, h5, h6⟩ := build_strings_ok_none _ _ _ _ _ _ hok
    exact ⟨by simp [h1, fiber_solids], by simp [h2, fiber_lvs, hpge_lv_of],
      by simp [h3, fiber_pvs], by simp [h4, fiber_dets], h5, h6⟩
  | some f =>
    obtain ⟨h1, h2, h3, h4, h5, h6⟩ := build_strings_ok_some _ _ _ _ _ _ _ hok
    exact ⟨by simp [h1, fiber_solids], by simp [h2, fiber_lvs, hpge_lv_of],
      by simp [h3, fiber_pvs], by simp [h4, fiber_dets], h5, h6⟩

theorem constructCore_ok (m : Metadata) (cfg : Config) (d : CryoDims) (r : Registry)
    (hok : constructCore m cfg d = .ok r) :
    r.solids = [.box "world" 50 50 50] ++ (cryostat_lvs d).map LogicalVolume.solid ++
      (cfg.hpges.getD []).map (fun h => .hpge (hmOf m h).name) ++
      fiber_solids cfg.fiber_shroud ++ source_solids cfg.source ++ cavern_solids cfg.cavern ∧
    r.logicalVolumes = [construct_world_lv] ++ cryostat_lvs d ++
      (cfg.hpges.getD []).map (hpge_lv_of m) ++ fiber_lvs cfg.fiber_shroud ++
      source_lvs cfg.source ++ cavern_lvs cfg.cavern ∧
    r.physicalVolumes = cryostat_pvs d "world" ++
      (cfg.hpges.getD []).map (hpgePV "lar" (lar_height_core d) m) ++
      fiber_pvs "lar" (lar_height_core d) cfg.fiber_shroud ++
      source_pvs d cfg.source ++ cavern_pvs cfg.cavern ∧
    r.activeDetectors = (List.enumFrom 0 (cfg.hpges.getD [])).map
      (fun p => (p.2.name, ⟨"germanium", p.1⟩)) ++ fiber_dets cfg.fiber_shroud ∧
    r.hpgeFactoryCalls = (cfg.hpges.getD []).map (hmOf m) ∧
    r.world = some "world" := by
  unfold constructCore at hok
  cases hbc : build_cryostat d construct_world_lv construct_reg0 with
  | error e => rw [hbc] at hok; exact absurd hok (by simp)
  | ok r1 =>
    rw [hbc] at hok
    dsimp only at hok
    obtain ⟨b1, b2, b3, b4, b5, b6⟩ := build_cryostat_ok _ _ _ _ hbc
    have hfind : r1.logicalVolumes.reverse.find? (fun lv => lv.name = "lar") =
        some ⟨"lar", .polycone "lar" (lar_profile d).1 (lar_profile d).2, "liquidargon"⟩ := by
      rw [b2]
      simp [construct_reg0, construct_world_lv, Registry.addLV, Registry.addSolid,
        cryostat_lvs, List.find?]
    rw [hfind] at hok
    dsimp only at hok
    cases hbs : build_strings ⟨"lar", .polycone "lar" (lar_profile d).1 (lar_profile d).2,
        "liquidargon"⟩ (cfg.hpges.getD []) m r1
        (d.inner_lower_height + d.inner_upper_height - d.gas_argon_height)
        cfg.fiber_shroud with
    | error e => rw [hbs] at hok; exact absurd hok (by simp)
    | ok r2 =>
      rw [hbs] at hok
      dsimp only at hok
      obtain ⟨s1, s2, s3, s4, s5, s6⟩ := build_strings_ok _ _ _ _ _ _ _ hbs
      simp only [Except.ok.injEq] at hok
      subst hok
      have hreg0s : construct_reg0.solids = [Solid.box "world" 50 50 50] := rfl
      have hreg0l : construct_reg0.logicalVolumes = [construct_world_lv] := rfl
      have hreg0p : construct_reg0.physicalVolumes = [] := rfl
      have hreg0a : construct_reg0.activeDetectors = [] := rfl
      have hreg0f : construct_reg0.hpgeFactoryCalls = [] := rfl
      have hreg0w : construct_reg0.world = some "world" := rfl
      cases hsrc : cfg.source <;> cases hcav : cfg.cavern <;>
        refine ⟨?_, ?_, ?_, ?_, ?_, ?_⟩ <;>
          simp [hsrc, hcav, build_source, construct_cavern, Registry.addSolid, Registry.addLV,
            Registry.addPV, s1, s2, s3, s4, s5, s6, b1, b2, b3, b4, b5, b6,
            hreg0s, hreg0l, hreg0p, hreg0a, hreg0f, hreg0w,
            source_solids, source_lvs, source_pvs, cavern_solids, cavern_lvs, cavern_pvs,
            source_placement, lar_height_core, construct_world_lv]

theorem constructCore_isOk (m : Metadata) (cfg : Config) (d : CryoDims)
    (hmeta : ∀ h ∈ cfg.hpges.getD [], (m h.name).isSome = true) :
    ∃ r, constructCore m cfg d = .ok r := by
  unfold constructCore
  obtain ⟨r1, hbc⟩ := build_cryostat_isOk d construct_world_lv construct_reg0
  rw [hbc]
  dsimp only
  obtain ⟨b1, b2, b3, b4, b5, b6⟩ := build_cryostat_ok _ _ _ _ hbc
  have hfind : r1.logicalVolumes.reverse.find? (fun lv => lv.name = "lar") =
      some ⟨"lar", .polycone "lar" (lar_profile d).1 (lar_profile d).2, "liquidargon"⟩ := by
    rw [b2]
    simp [construct_reg0, construct_world_lv, Registry.addLV, Registry.addSolid,
      cryostat_lvs, List.find?]
  rw [hfind]
  dsimp only
  have hlar1 : "lar" ∈ r1.pvNames := by
    simp [Registry.pvNames, b3, cryostat_pvs, inner_cryostat_pv]
  obtain ⟨r2, hbs⟩ := build_strings_isOk
    ⟨"lar", .polycone "lar" (lar_profile d).1 (lar_profile d).2, "liquidargon"⟩
    (cfg.hpges.getD []) m r1
    (d.inner_lower_height + d.inner_upper_height - d.gas_argon_height)
    cfg.fiber_shroud hlar1 hmeta
  rw [hbs]
  exact ⟨_, rfl⟩

/-! ## Claims -/

/-- C1: when the internal metadata source is unavailable and
`public_geometry` is false, `construct` fails fatally with the explicit
safety-gate message.  When the public fallback is authorized
(`public_geometry` true), however, the code does not recover: `core.py`
line 95 calls `PublicMetadataProxy(dets)` with one positional argument
while `PublicMetadataProxy.__init__` (metadata.py line 12) accepts none,
so the call raises `TypeError` instead of building the geometry from the
public-data substitute. -/
theorem C1_metadata_gate :
    construct none false none sampleMeta none sampleDims =
      .error "cannot construct geometry from public testdata only, if not explicitly instructed" ∧
    construct none true (some sampleMeta) sampleMeta none sampleDims = .error arityErrorMsg ∧
    construct none true none sampleMeta none sampleDims = .error arityErrorMsg :=
  ⟨rfl, rfl, rfl⟩

/-- The LAr profile is the six-point contour with lower radius
`inner.radius`, upper radius `inner.radius + lower.thickness/2 -
upper.thickness/2`, thickness step at `lower.height` and top at
`lower.height + upper.height - TOL`. -/
theorem lar_profile_eq_contour (d : CryoDims) :
    lar_profile d = contour d.inner_radius
      (d.inner_radius + d.inner_lower_thickness / 2 - d.inner_upper_thickness / 2)
      d.inner_lower_height (d.inner_lower_height + d.inner_upper_height - TOL) := rfl

/-- The inner-cryostat profile is the six-point contour with lower radius
`inner.radius + lower.thickness`, upper radius `inner.radius +
lower.thickness/2 + upper.thickness/2`, thickness step at `lower.height +
lower.thickness` and top at `lower.height + upper.height +
lower.thickness`. -/
theorem inner_cryostat_profile_eq_contour (d : CryoDims) :
    inner_cryostat_profile d = contour
      (d.inner_radius + d.inner_lower_thickness)
      (d.inner_radius + d.inner_lower_thickness / 2 + d.inner_upper_thickness / 2)
      (d.inner_lower_height + d.inner_lower_thickness)
      (d.inner_lower_height + d.inner_upper_height + d.inner_lower_thickness) := rfl

/-- C2 (counterexample): at a concrete valid dimension input and height 0,
the LAr outer radius equals the inner-vessel wall inner radius at the
corresponding height exactly, so it is not below it by the tolerance
`TOL`. -/
theorem C2_counterexample :
    ValidDims sampleDims ∧ 0 ≤ (0 : ℚ) ∧ (0 : ℚ) ≤ lar_profile_top sampleDims ∧
    ¬ (lar_outer_radius_at sampleDims 0 ≤
        inner_wall_inner_radius_at sampleDims (0 + lar_z_in_inner sampleDims) - TOL) := by
  refine ⟨?_, le_refl 0, ?_, ?_⟩
  · unfold ValidDims sampleDims TOL
    norm_num
  · unfold lar_profile_top sampleDims TOL
    norm_num
  · unfold lar_outer_radius_at inner_wall_inner_radius_at inner_outer_radius_at
      inner_wall_thickness_at contourRadiusAt lar_z_in_inner sampleDims TOL
    norm_num

/-- C2 (amended): at every height of the fill volume, the LAr outer radius
is at most the inner radius of the inner-vessel wall at the corresponding
height (they coincide exactly; no radial `TOL` margin is left — the
tolerance is applied to the top height of the LAr profile instead). -/
theorem C2_nesting_invariant (d : CryoDims) (z : ℚ)
    (h0 : 0 ≤ z) (h1 : z ≤ lar_profile_top d) :
    lar_outer_radius_at d z ≤
      inner_wall_inner_radius_at d (z + lar_z_in_inner d) := by
  unfold lar_outer_radius_at inner_wall_inner_radius_at inner_outer_radius_at
    inner_wall_thickness_at contourRadiusAt lar_z_in_inner
  by_cases hz : z < d.inner_lower_height
  · rw [if_pos hz, if_pos (by linarith), if_pos (by linarith)]
    linarith
  · rw [if_neg hz, if_neg (by intro hc; exact hz (by linarith)),
      if_neg (by intro hc; exact hz (by linarith))]
    linarith

/-- Witness for C2 (amended) at the sample dimensions and height 0. -/
theorem C2_nesting_invariant_witness :
    0 ≤ (0 : ℚ) ∧ (0 : ℚ) ≤ lar_profile_top sampleDims ∧
    lar_outer_radius_at sampleDims 0 ≤
      inner_wall_inner_radius_at sampleDims (0 + lar_z_in_inner sampleDims) :=
  ⟨le_refl 0, by unfold lar_profile_top sampleDims TOL; norm_num,
    C2_nesting_invariant sampleDims 0 (le_refl 0)
      (by unfold lar_profile_top sampleDims TOL; norm_num)⟩

theorem findPV_none_of_not_mem {r : Registry} {n : String}
    (h : n ∉ r.pvNames) : r.findPV n = none := by
  cases hq : r.findPV n with
  | none => rfl
  | some q =>
    exfalso
    apply h
    have hmem := List.mem_of_find?_eq_some hq
    have hpred := List.find?_some hq
    rw [mem_pvNames]
    exact ⟨q, List.mem_reverse.mp hmem, by simpa using hpred⟩

/-- C5 (counterexample): at the sample dimensions (gaseous-argon height
200), the inner vessel is placed at minus the reference shift, but the
reference shift `(lower.height + upper.height)/2` is neither half the
liquid-fill height computed by `core.py` (`lower + upper - gas_argon`)
nor half the LAr profile height (`lower + upper - TOL`). -/
theorem C5_counterexample :
    (∃ r, construct none false (some sampleMeta) sampleMeta none sampleDims = .ok r ∧
      r.findPV "inner_cryostat" =
        some ⟨"inner_cryostat", "inner_cryostat", "world", 0, -reference_shift sampleDims⟩) ∧
    reference_shift sampleDims ≠ lar_height_core sampleDims / 2 ∧
    reference_shift sampleDims ≠ lar_profile_top sampleDims / 2 := by
  refine ⟨⟨_, rfl, rfl⟩, ?_, ?_⟩
  · unfold reference_shift lar_height_core sampleDims
    norm_num
  · unfold reference_shift lar_profile_top sampleDims TOL
    norm_num

/-- C5 (amended): the inner vessel is placed in the world at minus the
reference shift, where the reference shift is half the sum of the inner
vessel lower and upper section heights (`(lower.height +
upper.height)/2`); this exceeds half the LAr profile height by `TOL/2`
and differs from half the liquid-fill height by half the gaseous-argon
height. -/
theorem C5_reference_shift :
    (∀ d : CryoDims, reference_shift d =
      (d.inner_lower_height + d.inner_upper_height) / 2 ∧
      reference_shift d - lar_profile_top d / 2 = TOL / 2 ∧
      reference_shift d - lar_height_core d / 2 = d.gas_argon_height / 2) ∧
    (∀ (d : CryoDims) (w : LogicalVolume) (reg : Registry),
      ∃ r, build_cryostat d w reg = .ok r ∧
        r.findPV "inner_cryostat" =
          some ⟨"inner_cryostat", "inner_cryostat", w.name, 0, -reference_shift d⟩) ∧
    (∀ (d : CryoDims) (m pm : Metadata) (e : Option Metadata),
      ∃ r, construct none false (some m) pm e d = .ok r ∧
        r.findPV "inner_cryostat" =
          some ⟨"inner_cryostat", "inner_cryostat", "world", 0, -reference_shift d⟩) := by
  refine ⟨?_, ?_, ?_⟩
  · intro d
    refine ⟨rfl, ?_, ?_⟩ <;>
      (simp only [reference_shift, lar_profile_top, lar_height_core, TOL]; ring)
  · intro d w reg
    obtain ⟨r, hok⟩ := build_cryostat_isOk d w reg
    obtain ⟨-, -, b3, -, -, -⟩ := build_cryostat_ok _ _ _ _ hok
    refine ⟨r, hok, ?_⟩
    simp [Registry.findPV, b3, cryostat_pvs, inner_cryostat_pv, List.find?]
  · intro d m pm e
    obtain ⟨r, hok⟩ := constructCore_isOk (merge_configs m e) {} d (by simp)
    obtain ⟨-, -, c3, -, -, -⟩ := constructCore_ok _ _ _ _ hok
    refine ⟨r, hok, ?_⟩
    simp [Registry.findPV, c3, cryostat_pvs, inner_cryostat_pv, fiber_pvs, source_pvs,
      cavern_pvs, List.find?]

/-- C7: attaching a border surface that references a physical-volume name
not yet registered fails with a lookup error (the Python `KeyError` of
`reg.physicalVolumeDict[name]`), and no border surface is added: the
operation returns no registry. -/
theorem C7_lookup_failure :
    (∀ (pv : PhysVol) (reg : Registry) (lar_name : String),
      lar_name ∉ reg.pvNames →
      set_germanium_reflectivity pv reg lar_name = .error ("KeyError: " ++ lar_name)) ∧
    (∀ (reg : Registry) (a b : String), a ∉ reg.pvNames →
      set_steel_reflectivity reg a b = .error ("KeyError: " ++ a)) ∧
    (∀ (reg : Registry) (a b : String), a ∈ reg.pvNames → b ∉ reg.pvNames →
      set_steel_reflectivity reg a b = .error ("KeyError: " ++ b)) := by
  refine ⟨?_, ?_, ?_⟩
  · intro pv reg lar_name h
    unfold set_germanium_reflectivity
    rw [findPV_none_of_not_mem (show lar_name ∉ (reg.addOptical "surface_to_germanium").pvNames from h)]
  · intro reg a b h
    unfold set_steel_reflectivity
    rw [findPV_none_of_not_mem (show a ∉ (reg.addOptical "surface_to_steel").pvNames from h)]
  · intro reg a b ha hb
    unfold set_steel_reflectivity
    obtain ⟨q, hq⟩ :=
      findPV_isSome_of_mem (show a ∈ (reg.addOptical "surface_to_steel").pvNames from ha)
    rw [hq]
    rw [findPV_none_of_not_mem (show b ∉ (reg.addOptical "surface_to_steel").pvNames from hb)]

/-- Witness for C7: on an empty registry both annotators fail with the
lookup error, and with only the LAr volume placed the steel annotator
still fails on the missing vessel name. -/
theorem C7_lookup_failure_witness :
    set_germanium_reflectivity ⟨"det", "det", "lar", 0, 0⟩ {} "lar" =
      .error ("KeyError: " ++ "lar") ∧
    set_steel_reflectivity {} "lar" "inner_cryostat" = .error ("KeyError: " ++ "lar") ∧
    set_steel_reflectivity (({} : Registry).addPV ⟨"lar", "lar", "world", 0, 0⟩)
      "lar" "inner_cryostat" = .error ("KeyError: " ++ "inner_cryostat") :=
  ⟨C7_lookup_failure.1 _ {} "lar" (by decide),
    C7_lookup_failure.2.1 {} "lar" "inner_cryostat" (by decide),
    C7_lookup_failure.2.2 _ "lar" "inner_cryostat" (by decide) (by decide)⟩

/-- C9: every profile generator returns radius and height lists of equal
length, and every radius is nonnegative, for every valid dimension
input. -/
theorem C9_profile_generators (d : CryoDims) (h : ValidDims d) :
    ((inner_cryostat_profile d).1.length = (inner_cryostat_profile d).2.length ∧
      ∀ x ∈ (inner_cryostat_profile d).1, 0 ≤ x) ∧
    ((lar_profile d).1.length = (lar_profile d).2.length ∧
      ∀ x ∈ (lar_profile d).1, 0 ≤ x) ∧
    ((gaseous_argon_profile d).1.length = (gaseous_argon_profile d).2.length ∧
      ∀ x ∈ (gaseous_argon_profile d).1, 0 ≤ x) ∧
    ((outer_cryostat_profile d).1.length = (outer_cryostat_profile d).2.length ∧
      ∀ x ∈ (outer_cryostat_profile d).1, 0 ≤ x) ∧
    ((cryostat_lid_profile d).1.length = (cryostat_lid_profile d).2.length ∧
      ∀ x ∈ (cryostat_lid_profile d).1, 0 ≤ x) ∧
    ((lead_profile d).1.length = (lead_profile d).2.length ∧
      ∀ x ∈ (lead_profile d).1, 0 ≤ x) := by
  obtain ⟨h1, h2, h3, h4, h5, h6, h7, h8, h9, h10, h11, h12, h13, h14, h15⟩ := h
  refine ⟨⟨rfl, ?_⟩, ⟨rfl, ?_⟩, ⟨rfl, ?_⟩, ⟨rfl, ?_⟩, ⟨rfl, ?_⟩, ⟨rfl, ?_⟩⟩ <;>
    (intro x hx; fin_cases hx <;> linarith)

/-- Witness for C9 at the sample dimensions (the LAr generator shown). -/
theorem C9_profile_generators_witness :
    ValidDims sampleDims ∧
    ((lar_profile sampleDims).1.length = (lar_profile sampleDims).2.length ∧
      ∀ x ∈ (lar_profile sampleDims).1, 0 ≤ x) :=
  ⟨by unfold ValidDims sampleDims TOL; norm_num,
    (C9_profile_generators sampleDims (by unfold ValidDims sampleDims TOL; norm_num)).2.1⟩

/-- Any physical-volume name in a constructed registry comes from the
cryostat, a configured detector, the fiber shroud, the source or the
cavern. -/
theorem mem_pvNames_construct {m : Metadata} {cfg : Config} {d : CryoDims} {r : Registry}
    (hok : constructCore m cfg d = .ok r) {n : String} (hn : n ∈ r.pvNames) :
    n ∈ ["inner_cryostat", "lar", "gaseous_argon", "outer_cryostat",
      "cryostat_lid", "lead_shield"] ∨
    (∃ h ∈ cfg.hpges.getD [], h.name = n) ∨
    (cfg.fiber_shroud.isSome = true ∧ (n = "fiber_core" ∨ n = "fiber_shroud")) ∨
    (cfg.source.isSome = true ∧ n = "source") ∨
    (cfg.cavern.isSome = true ∧ n = "cavern") := by
  obtain ⟨-, -, c3, -, -, -⟩ := constructCore_ok _ _ _ _ hok
  rw [Registry.pvNames, c3] at hn
  simp only [List.map_append, List.mem_append, List.mem_map] at hn
  rcases hn with ((((hn | hn) | hn) | hn) | hn)
  · obtain ⟨pv, hpv, rfl⟩ := hn
    exact Or.inl (by fin_cases hpv <;> simp [inner_cryostat_pv])
  · obtain ⟨pv, hpv, rfl⟩ := hn
    obtain ⟨h, hh, rfl⟩ := hpv
    exact Or.inr (Or.inl ⟨h, hh, rfl⟩)
  · obtain ⟨pv, hpv, rfl⟩ := hn
    cases hfs : cfg.fiber_shroud with
    | none => rw [hfs] at hpv; exact absurd hpv (by simp [fiber_pvs])
    | some f =>
      rw [hfs] at hpv
      refine Or.inr (Or.inr (Or.inl ⟨by simp [hfs], ?_⟩))
      fin_cases hpv
      · exact Or.inl rfl
      · exact Or.inr rfl
  · obtain ⟨pv, hpv, rfl⟩ := hn
    cases hsc : cfg.source with
    | none => rw [hsc] at hpv; exact absurd hpv (by simp [source_pvs])
    | some s =>
      rw [hsc] at hpv
      refine Or.inr (Or.inr (Or.inr (Or.inl ⟨by simp [hsc], ?_⟩)))
      fin_cases hpv
      exact rfl
  · obtain ⟨pv, hpv, rfl⟩ := hn
    cases hcv : cfg.cavern with
    | none => rw [hcv] at hpv; exact absurd hpv (by simp [cavern_pvs])
    | some c =>
      rw [hcv] at hpv
      refine Or.inr (Or.inr (Or.inr (Or.inr ⟨by simp [hcv], ?_⟩)))
      fin_cases hpv
      exact rfl

theorem germ_filter_map (l : List (Nat × HpgeEntry)) :
    ((l.map (fun p => (p.2.name, (⟨"germanium", p.1⟩ : RemageDetectorInfo)))).filter
        (fun t => t.2.kind = "germanium")).map (fun t => (t.1, t.2.uid)) =
      l.map (fun p => (p.2.name, p.1)) := by
  induction l with
  | nil => rfl
  | cons x xs ih => simp [List.filter, ih]

/-- C3: constructing with an empty configuration yields a registry with
the world, inner vessel, fill volume, outer vessel and lid, and no
detector, source, fiber-shroud or cavern volumes; and for any
configuration, the source, cavern, fiber-shroud and detector subsystems
produce volumes only when their top-level key is present. -/
theorem C3_empty_config_and_gating :
    (∀ (d : CryoDims) (m pm : Metadata) (e : Option Metadata),
      ∃ r, construct none false (some m) pm e d = .ok r ∧
        r.world = some "world" ∧
        "world" ∈ r.lvNames ∧ "inner_cryostat" ∈ r.lvNames ∧ "lar" ∈ r.lvNames ∧
        "outer_cryostat" ∈ r.lvNames ∧ "cryostat_lid" ∈ r.lvNames ∧
        "inner_cryostat" ∈ r.pvNames ∧ "lar" ∈ r.pvNames ∧
        "outer_cryostat" ∈ r.pvNames ∧ "cryostat_lid" ∈ r.pvNames ∧
        r.activeDetectors = [] ∧ r.hpgeFactoryCalls = [] ∧
        "source" ∉ r.pvNames ∧ "cavern" ∉ r.pvNames ∧
        "fiber_shroud" ∉ r.pvNames ∧ "fiber_core" ∉ r.pvNames) ∧
    (∀ (cfg : Config) (d : CryoDims) (m pm : Metadata) (e : Option Metadata) (r : Registry),
      construct (some cfg) false (some m) pm e d = .ok r →
      (∀ h ∈ cfg.hpges.getD [], h.name ∉ ["source", "cavern", "fiber_shroud"]) →
      (cfg.source = none → "source" ∉ r.pvNames) ∧
      (cfg.cavern = none → "cavern" ∉ r.pvNames) ∧
      (cfg.fiber_shroud = none → "fiber_shroud" ∉ r.pvNames) ∧
      (cfg.hpges.getD [] = [] → r.germaniumDetectors = [])) := by
  constructor
  · intro d m pm e
    obtain ⟨r, hok⟩ := constructCore_isOk (merge_configs m e) {} d (by simp)
    obtain ⟨c1, c2, c3, c4, c5, c6⟩ := constructCore_ok _ _ _ _ hok
    refine ⟨r, hok, c6, ?_, ?_, ?_, ?_, ?_, ?_, ?_, ?_, ?_, ?_, ?_, ?_, ?_, ?_, ?_⟩ <;>
      simp [Registry.lvNames, Registry.pvNames, c2, c3, c4, c5, cryostat_lvs, cryostat_pvs,
        inner_cryostat_pv, fiber_lvs, source_lvs, cavern_lvs, fiber_pvs, source_pvs,
        cavern_pvs, fiber_dets, construct_world_lv]
  · intro cfg d m pm e r hok hnames
    have hok' : constructCore (merge_configs m e) cfg d = .ok r := hok
    obtain ⟨c1, c2, c3, c4, c5, c6⟩ := constructCore_ok _ _ _ _ hok'
    refine ⟨?_, ?_, ?_, ?_⟩
    · intro hs hmem
      rcases mem_pvNames_construct hok' hmem with h | h | h | h | h
      · exact absurd h (by decide)
      · obtain ⟨x, hx, hxe⟩ := h
        have := hnames x hx
        rw [hxe] at this
        simp at this
      · rcases h.2 with h2 | h2 <;> exact absurd h2 (by decide)
      · rw [hs] at h
        exact absurd h.1 (by simp)
      · exact absurd h.2 (by decide)
    · intro hs hmem
      rcases mem_pvNames_construct hok' hmem with h | h | h | h | h
      · exact absurd h (by decide)
      · obtain ⟨x, hx, hxe⟩ := h
        have := hnames x hx
        rw [hxe] at this
        simp at this
      · rcases h.2 with h2 | h2 <;> exact absurd h2 (by decide)
      · exact absurd h.2 (by decide)
      · rw [hs] at h
        exact absurd h.1 (by simp)
    · intro hs hmem
      rcases mem_pvNames_construct hok' hmem with h | h | h | h | h
      · exact absurd h (by decide)
      · obtain ⟨x, hx, hxe⟩ := h
        have := hnames x hx
        rw [hxe] at this
        simp at this
      · rw [hs] at h
        exact absurd h.1 (by simp)
      · exact absurd h.2 (by decide)
      · exact absurd h.2 (by decide)
    · intro hhp
      cases hfs : cfg.fiber_shroud <;>
        simp [Registry.germaniumDetectors, c4, hhp, hfs, fiber_dets, List.filter]

/-- Witness for C3: at the sample dimensions, the explicit empty
configuration yields no source, cavern, fiber-shroud or detector
volumes. -/
theorem C3_empty_config_and_gating_witness :
    ∃ r, construct (some ({} : Config)) false (some sampleMeta) sampleMeta none sampleDims
        = .ok r ∧
      "source" ∉ r.pvNames ∧ "cavern" ∉ r.pvNames ∧
      "fiber_shroud" ∉ r.pvNames ∧ r.germaniumDetectors = [] := by
  refine ⟨_, rfl, ?_, ?_, ?_, ?_⟩
  · exact (C3_empty_config_and_gating.2 {} sampleDims sampleMeta sampleMeta none _ rfl
      (by simp)).1 rfl
  · exact (C3_empty_config_and_gating.2 {} sampleDims sampleMeta sampleMeta none _ rfl
      (by simp)).2.1 rfl
  · exact (C3_empty_config_and_gating.2 {} sampleDims sampleMeta sampleMeta none _ rfl
      (by simp)).2.2.1 rfl
  · exact (C3_empty_config_and_gating.2 {} sampleDims sampleMeta sampleMeta none _ rfl
      (by simp)).2.2.2 rfl

/-- C4: every placed HPGe detector gets an active-detector tag whose
integer id is its zero-based position in the configured list, and its
physical volume is placed with the fill volume (`lar`) as mother. -/
theorem C4_detector_ids (cfg : Config) (d : CryoDims) (m pm : Metadata)
    (e : Option Metadata) (r : Registry)
    (hok : construct (some cfg) false (some m) pm e d = .ok r) :
    r.germaniumDetectors =
      (List.enumFrom 0 (cfg.hpges.getD [])).map (fun p => (p.2.name, p.1)) ∧
    ∀ h ∈ cfg.hpges.getD [],
      hpgePV "lar" (lar_height_core d) (merge_configs m e) h ∈ r.physicalVolumes ∧
      (hpgePV "lar" (lar_height_core d) (merge_configs m e) h).name = h.name ∧
      (hpgePV "lar" (lar_height_core d) (merge_configs m e) h).mother = "lar" := by
  have hok' : constructCore (merge_configs m e) cfg d = .ok r := hok
  obtain ⟨-, -, c3, c4, -, -⟩ := constructCore_ok _ _ _ _ hok'
  constructor
  · rw [Registry.germaniumDetectors, c4]
    cases cfg.fiber_shroud <;>
      simp [fiber_dets, List.filter_append, germ_filter_map, List.filter]
  · intro h hh
    refine ⟨?_, rfl, rfl⟩
    rw [c3]
    simp only [List.mem_append]
    exact Or.inl (Or.inl (Or.inl (Or.inr (List.mem_map_of_mem _ hh))))

/-- Witness for C4: the single-entry configuration `hpges = [X at 120]`
yields the detector tagged with id 0 and placed inside the LAr volume. -/
theorem C4_detector_ids_witness :
    ∃ r, construct (some { hpges := some [⟨"X", 120⟩] }) false (some sampleMeta)
        sampleMeta none sampleDims = .ok r ∧
      r.germaniumDetectors = [("X", 0)] ∧
      hpgePV "lar" (lar_height_core sampleDims) (merge_configs sampleMeta none) ⟨"X", 120⟩
        ∈ r.physicalVolumes ∧
      (hpgePV "lar" (lar_height_core sampleDims) (merge_configs sampleMeta none)
        ⟨"X", 120⟩).mother = "lar" := by
  refine ⟨_, rfl, ?_, ?_, rfl⟩
  · have h := (C4_detector_ids { hpges := some [⟨"X", 120⟩] } sampleDims sampleMeta
      sampleMeta none _ rfl).1
    simpa [List.enumFrom] using h
  · exact ((C4_detector_ids { hpges := some [⟨"X", 120⟩] } sampleDims sampleMeta
      sampleMeta none _ rfl).2 _ (List.mem_singleton.mpr rfl)).1

/-- C6: a detector metadata record with unset enrichment fraction is
normalized to `0.9` before being handed to the detector-shape factory;
records with a set fraction are passed through unchanged (the records the
factory receives are exactly the normalized lookups, in list order). -/
theorem C6_enrichment_default :
    (∀ rec : HpgeMeta, rec.production.enrichment.val = none →
      normalize_enrichment rec =
        { rec with production := { rec.production with enrichment := ⟨some (9 / 10)⟩ } }) ∧
    (∀ rec : HpgeMeta, rec.production.enrichment.val ≠ none →
      normalize_enrichment rec = rec) ∧
    (∀ (cfg : Config) (d : CryoDims) (m pm : Metadata) (e : Option Metadata) (r : Registry),
      construct (some cfg) false (some m) pm e d = .ok r →
      r.hpgeFactoryCalls = (cfg.hpges.getD []).map (hmOf (merge_configs m e))) := by
  refine ⟨?_, ?_, ?_⟩
  · intro rec h
    unfold normalize_enrichment
    rw [if_pos h]
  · intro rec h
    unfold normalize_enrichment
    rw [if_neg h]
  · intro cfg d m pm e r hok
    have hok' : constructCore (merge_configs m e) cfg d = .ok r := hok
    exact (constructCore_ok _ _ _ _ hok').2.2.2.2.1

/-- Witness for C6: an unset record is filled with `0.9`, a set record is
unchanged, and the factory receives the normalized record. -/
theorem C6_enrichment_default_witness :
    normalize_enrichment ⟨"X", ⟨⟨none⟩⟩⟩ = ⟨"X", ⟨⟨some (9 / 10)⟩⟩⟩ ∧
    normalize_enrichment ⟨"Y", ⟨⟨some (88 / 100)⟩⟩⟩ = ⟨"Y", ⟨⟨some (88 / 100)⟩⟩⟩ ∧
    ∃ r, construct (some { hpges := some [⟨"X", 120⟩] }) false (some sampleMeta)
        sampleMeta none sampleDims = .ok r ∧
      r.hpgeFactoryCalls = [⟨"X", ⟨⟨some (9 / 10)⟩⟩⟩] := by
  refine ⟨C6_enrichment_default.1 _ rfl, C6_enrichment_default.2.1 _ (by simp), ?_⟩
  refine ⟨_, rfl, ?_⟩
  have h := C6_enrichment_default.2.2 { hpges := some [⟨"X", 120⟩] } sampleDims sampleMeta
    sampleMeta none _ rfl
  simpa [hmOf, merge_configs, sampleMeta, normalize_enrichment] using h

/-- C8: the constructor is deterministic: two calls with identical
configuration and metadata yield registries with equal logical-volume and
physical-volume name lists. -/
theorem C8_idempotent (cfg : Option Config) (pg : Bool) (im : Option Metadata)
    (pm : Metadata) (e : Option Metadata) (d : CryoDims) (r₁ r₂ : Registry)
    (h₁ : construct cfg pg im pm e d = .ok r₁)
    (h₂ : construct cfg pg im pm e d = .ok r₂) :
    r₁.lvNames = r₂.lvNames ∧ r₁.pvNames = r₂.pvNames := by
  rw [h₁] at h₂
  simp only [Except.ok.injEq] at h₂
  subst h₂
  exact ⟨rfl, rfl⟩

/-- Witness for C8 at the empty configuration and sample dimensions. -/
theorem C8_idempotent_witness :
    ∃ r₁ r₂, construct none false (some sampleMeta) sampleMeta none sampleDims = .ok r₁ ∧
      construct none false (some sampleMeta) sampleMeta none sampleDims = .ok r₂ ∧
      r₁.lvNames = r₂.lvNames ∧ r₁.pvNames = r₂.pvNames :=
  ⟨_, _, rfl, rfl,
    C8_idempotent none false (some sampleMeta) sampleMeta none sampleDims _ _ rfl rfl⟩

/-- A stand-in LAr logical volume for exercising `build_strings`
directly. -/
def sampleLarLV : LogicalVolume := ⟨"lar", .tubs "lar" 0 1 1, "liquidargon"⟩

/-- A registry with only a LAr physical volume placed. -/
def sampleLarReg : Registry := ({} : Registry).addPV ⟨"lar", "lar", "world", 0, 0⟩

/-- C10: the fiber shroud is built independently of the `mode`,
`height_in_mm` and `radius_in_mm` configuration values — the tubes always
use the default height 1000 and radius 115 — and only
`center_pos_from_lar_center` affects the result, fixing the vertical
placement of the shroud. -/
theorem C10_fiber_shroud_fixed :
    (∀ (lar_lv : LogicalVolume) (hpges : List HpgeEntry) (m : Metadata)
        (reg : Registry) (lh : ℚ) (f₁ f₂ : FiberShroudConfig),
      f₁.center_pos_from_lar_center = f₂.center_pos_from_lar_center →
      build_strings lar_lv hpges m reg lh (some f₁) =
        build_strings lar_lv hpges m reg lh (some f₂)) ∧
    (∀ (lar_lv : LogicalVolume) (hpges : List HpgeEntry) (m : Metadata)
        (reg : Registry) (lh : ℚ) (f : FiberShroudConfig) (r : Registry),
      build_strings lar_lv hpges m reg lh (some f) = .ok r →
      coating_tubs ∈ r.solids ∧ core_tubs ∈ r.solids ∧
      r.findPV "fiber_shroud" =
        some (fiber_shroud_pv lar_lv.name lh f.center_pos_from_lar_center)) ∧
    coating_tubs = .tubs "tpb_coating" (115 - (1 + 2 * 1 / 1000) / 2)
      (115 + (1 + 2 * 1 / 1000) / 2) 1000 ∧
    core_tubs = .tubs "fiber_core" (115 - 1 / 2) (115 + 1 / 2) 1000 := by
  refine ⟨?_, ?_, rfl, rfl⟩
  · intro lar_lv hpges m reg lh f₁ f₂ hcenter
    cases hloop : strings_loop lar_lv lh m 0 hpges reg with
    | error e => unfold build_strings; rw [hloop]
    | ok r0 =>
      unfold build_strings
      rw [hloop]
      dsimp only
      rw [hcenter]
  · intro lar_lv hpges m reg lh f r hok
    obtain ⟨h1, -, h3, -, -, -⟩ := build_strings_ok_some _ _ _ _ _ _ _ hok
    refine ⟨?_, ?_, ?_⟩
    · rw [h1]; simp
    · rw [h1]; simp
    · simp [Registry.findPV, h3, List.find?, fiber_core_pv, fiber_shroud_pv]

/-- Witness for C10: two fiber-shroud configurations differing in mode,
height and radius but sharing the center position produce identical
results, and the build registers the default-dimension tubes. -/
theorem C10_fiber_shroud_fixed_witness :
    build_strings sampleLarLV [] sampleMeta sampleLarReg 1000
        (some ⟨some "simplified", some 1200, some 200, 0⟩) =
      build_strings sampleLarLV [] sampleMeta sampleLarReg 1000
        (some ⟨some "detailed", none, none, 0⟩) ∧
    ∃ r, build_strings sampleLarLV [] sampleMeta sampleLarReg 1000
        (some ⟨some "detailed", none, none, 0⟩) = .ok r ∧
      coating_tubs ∈ r.solids ∧ core_tubs ∈ r.solids ∧
      r.findPV "fiber_shroud" = some (fiber_shroud_pv sampleLarLV.name 1000 0) := by
  refine ⟨C10_fiber_shroud_fixed.1 _ _ _ _ _ _ _ rfl, _, rfl, ?_⟩
  exact C10_fiber_shroud_fixed.2.1 sampleLarLV [] sampleMeta sampleLarReg 1000
    ⟨some "detailed", none, none, 0⟩ _ rfl

end PygeomScarf
